import Mathlib

/-! # HotPlate reflow controller: the control loop of `src/main.cpp`

A shallow embedding of the Arduino sketch.  The global variables of the sketch
(and the output pins it drives) form the record `State`; `setup` builds the
first state and `loop` is one pass of the Arduino `loop()` function, written as
a pure function of the state and of what the outside world supplies during that
pass (`Input`).

Modelling conventions:

* `unsigned long` values are natural numbers; additions and subtractions are
  taken modulo `2 ^ 32` (`ulAdd`, `ulSub`), as on the target.
* `millis()` is read once per pass: all calls inside one pass see `inp.now`.
* `double` values (`setpoint`, `thermoReading`, `thermoReadingRead`, `output`)
  are integers: the sketch only assigns integer constants to them, increments
  or decrements them, and compares them with integer constants.
* `Button::debounce()` and the temperature sensor are external libraries; the
  value each call returns is a field of `Input`.  `startBtn.debounce()` is
  called at two places of `loop()` (the stop test and the start test inside
  `case REFLOW_STATE_IDLE`), hence two fields.
* Of the `PID` object only what the sketch itself sets is kept: the tunings,
  the mode, the output limits and the sample time.
* Display-only variables (`updateLcd`, `timerSeconds`, `temperatureUpdate`,
  `temperature`, `idx`) and the calls to `tone` are left out.
-/

namespace HotPlate

/-! ## Types -/

/-- The enumeration `reflowState_t`. -/
inductive reflowState_t where
  | REFLOW_STATE_IDLE
  | REFLOW_STATE_PREHEAT
  | REFLOW_STATE_SOAK
  | REFLOW_STATE_REFLOW
  | REFLOW_STATE_COOL
  | REFLOW_STATE_COMPLETE
  | REFLOW_STATE_TOO_HOT
  | REFLOW_STATE_ERROR
  deriving DecidableEq

/-- The enumeration `reflowStatus_t`. -/
inductive reflowStatus_t where
  | REFLOW_STATUS_OFF
  | REFLOW_STATUS_ON
  deriving DecidableEq

/-- The enumeration `reflowProfile_t`. -/
inductive reflowProfile_t where
  | REFLOW_PROFILE_LEADFREE
  | REFLOW_PROFILE_LEADED
  deriving DecidableEq

open reflowState_t reflowStatus_t reflowProfile_t

/-- The three gains handed to `PID::SetTunings`. -/
structure Tunings where
  kp : ℚ
  ki : ℚ
  kd : ℚ
  deriving DecidableEq

/-! ## Constants (`#define`s of the sketch) -/

abbrev TEMPERATURE_ROOM : Int := 50
abbrev TEMPERATURE_SOAK_MIN : Int := 150
abbrev TEMPERATURE_COOL_MIN : Int := 100
abbrev SENSOR_SAMPLING_TIME : Nat := 1000
abbrev SOAK_TEMPERATURE_STEP : Int := 5
abbrev RUNAWAY_TIME : Nat := 5000

abbrev TEMPERATURE_SOAK_MAX_LF : Nat := 200
abbrev TEMPERATURE_REFLOW_MAX_LF : Nat := 250
abbrev SOAK_MICRO_PERIOD_LF : Nat := 9000

abbrev TEMPERATURE_SOAK_MAX_PB : Nat := 180
abbrev TEMPERATURE_REFLOW_MAX_PB : Nat := 224
abbrev SOAK_MICRO_PERIOD_PB : Nat := 10000

abbrev PID_SAMPLE_TIME : Nat := 1000

/-- Gains `PID_KP_PREHEAT`, `PID_KI_PREHEAT`, `PID_KD_PREHEAT`. -/
def PID_PREHEAT : Tunings := ⟨100, 0.025, 20⟩
/-- Gains `PID_KP_SOAK`, `PID_KI_SOAK`, `PID_KD_SOAK`. -/
def PID_SOAK : Tunings := ⟨300, 0.05, 250⟩
/-- Gains `PID_KP_REFLOW`, `PID_KI_REFLOW`, `PID_KD_REFLOW`. -/
def PID_REFLOW : Tunings := ⟨300, 0.05, 350⟩

/-! ## Machine arithmetic -/

/-- Number of values of an `unsigned long` (32 bits). -/
abbrev ULONG_RANGE : Nat := 4294967296

/-- Sum of two `unsigned long` values. -/
def ulAdd (a b : Nat) : Nat := (a + b) % ULONG_RANGE

/-- Difference of two `unsigned long` values. -/
def ulSub (a b : Nat) : Nat := (a % ULONG_RANGE + (ULONG_RANGE - b % ULONG_RANGE)) % ULONG_RANGE

/-- The byte `EEPROM.write` stores for a profile. -/
def profileByte : reflowProfile_t → Nat
  | REFLOW_PROFILE_LEADFREE => 0
  | REFLOW_PROFILE_LEADED => 1

/-! ## State and inputs -/

/-- The global variables of the sketch, the static `buzzerPeriod` of `loop()`,
the settings of `reflowOvenPID`, the EEPROM cell and the output pins. -/
structure State where
  reflowState : reflowState_t
  reflowStatus : reflowStatus_t
  reflowProfile : reflowProfile_t
  setpoint : Int
  thermoReading : Int
  thermoReadingRead : Int
  output : Int
  windowSize : Nat
  windowStartTime : Nat
  nextRead : Nat
  lastChangedTemp : Nat
  timerSoak : Nat
  soakTemperatureMax : Nat
  reflowTemperatureMax : Nat
  soakMicroPeriod : Nat
  buzzerPeriod : Nat
  pidTunings : Tunings
  pidAutomatic : Bool
  pidOutputLimits : Option (Nat × Nat)
  pidSampleTime : Option Nat
  eeprom : Nat
  ssrPin : Bool
  fanPin : Bool
  buzzerPin : Bool
  ledPin : Bool
  deriving DecidableEq

/-- What the outside world supplies during one pass of `loop()`. -/
structure Input where
  /-- value of `millis()` -/
  now : Nat
  /-- `startBtn.debounce()` in the stop test at the top of `loop()` -/
  startBtn1 : Bool
  /-- `profileBtn.debounce()` -/
  profileBtn : Bool
  /-- `upBtn.debounce()` -/
  upBtn : Bool
  /-- `downBtn.debounce()` -/
  downBtn : Bool
  /-- the temperature the sensor returns if it is read in this pass -/
  sensor : Int
  /-- `startBtn.debounce()` inside `case REFLOW_STATE_IDLE` -/
  startBtn2 : Bool
  /-- the value `reflowOvenPID.Compute()` would leave in `output` -/
  pidOutput : Int

/-- What `setup()` reads from the outside world. -/
structure Boot where
  /-- `EEPROM.read(PROFILE_TYPE_ADDRESS)` -/
  eepromByte : Nat
  /-- value of `millis()` at the end of `setup()` -/
  now : Nat
  /-- `thermocouple.begin() != 0` in a MAX31855 build, `false` in the others -/
  thermocoupleFault : Bool

/-- The value of `millis()` as an `unsigned long`. -/
def millis (inp : Input) : Nat := inp.now % ULONG_RANGE

/-! ## `setup()` -/

/-- The state `setup()` leaves: zero-initialised globals, the stored profile
(or lead-free, written back, when the stored byte is no profile), heater and
buzzer pins low. -/
def setup (b : Boot) : State :=
  { reflowState := if b.thermocoupleFault = true then REFLOW_STATE_ERROR else REFLOW_STATE_IDLE
    reflowStatus := REFLOW_STATUS_OFF
    reflowProfile := if b.eepromByte = 1 then REFLOW_PROFILE_LEADED else REFLOW_PROFILE_LEADFREE
    setpoint := 0
    thermoReading := 0
    thermoReadingRead := 0
    output := 0
    windowSize := 2000
    windowStartTime := 0
    nextRead := b.now % ULONG_RANGE
    lastChangedTemp := 0
    timerSoak := 0
    soakTemperatureMax := 0
    reflowTemperatureMax := 0
    soakMicroPeriod := 0
    buzzerPeriod := 0
    pidTunings := PID_PREHEAT
    pidAutomatic := false
    pidOutputLimits := none
    pidSampleTime := none
    eeprom := if b.eepromByte = 0 ∨ b.eepromByte = 1 then b.eepromByte else 0
    ssrPin := false
    fanPin := false
    buzzerPin := false
    ledPin := false }

/-! ## `loop()`, statement group by statement group -/

/-- Stop test: `if (startBtn.debounce() && (reflowStatus == ON || reflowState == ERROR))`. -/
def stopButton (s : State) (inp : Input) : State :=
  if inp.startBtn1 = true ∧
      (s.reflowStatus = REFLOW_STATUS_ON ∨ s.reflowState = REFLOW_STATE_ERROR) then
    { s with reflowStatus := REFLOW_STATUS_OFF, reflowState := REFLOW_STATE_IDLE }
  else s

/-- Profile toggle: `if (profileBtn.debounce() && (reflowState == REFLOW_STATE_IDLE))`. -/
def profileButton (s : State) (inp : Input) : State :=
  if inp.profileBtn = true ∧ s.reflowState = REFLOW_STATE_IDLE then
    if s.reflowProfile = REFLOW_PROFILE_LEADFREE then
      { s with reflowProfile := REFLOW_PROFILE_LEADED,
               eeprom := profileByte REFLOW_PROFILE_LEADED }
    else
      { s with reflowProfile := REFLOW_PROFILE_LEADFREE,
               eeprom := profileByte REFLOW_PROFILE_LEADFREE }
  else s

/-- Setpoint up: `if (upBtn.debounce() && (reflowStatus != REFLOW_STATUS_OFF)) setpoint++`. -/
def upButton (s : State) (inp : Input) : State :=
  if inp.upBtn = true ∧ s.reflowStatus ≠ REFLOW_STATUS_OFF then
    { s with setpoint := s.setpoint + 1 }
  else s

/-- Setpoint down: `if (downBtn.debounce() && (reflowStatus != REFLOW_STATUS_OFF)) setpoint--`. -/
def downButton (s : State) (inp : Input) : State :=
  if inp.downBtn = true ∧ s.reflowStatus ≠ REFLOW_STATUS_OFF then
    { s with setpoint := s.setpoint - 1 }
  else s

/-- The four button tests, in the order of the sketch. -/
def buttons (s : State) (inp : Input) : State :=
  downButton (upButton (profileButton (stopButton s inp) inp) inp) inp

/-- The fault branch shared by the cases of the runaway switch:
`if (millis() - lastChangedTemp < RUNAWAY_TIME) { ERROR; OFF }`. -/
def runawayTrip (s : State) (now : Nat) : State :=
  if ulSub now s.lastChangedTemp < RUNAWAY_TIME then
    { s with reflowState := REFLOW_STATE_ERROR, reflowStatus := REFLOW_STATUS_OFF }
  else s

/-- The switch under the comment "Runaway ERROR calculation". -/
def runaway (s : State) (now : Nat) : State :=
  match s.reflowState with
  | REFLOW_STATE_IDLE =>
    if s.thermoReadingRead < s.thermoReading then runawayTrip s now
    else { s with lastChangedTemp := now }
  | REFLOW_STATE_PREHEAT =>
    if s.thermoReadingRead < s.thermoReading then runawayTrip s now
    else { s with lastChangedTemp := now }
  | REFLOW_STATE_SOAK =>
    if s.thermoReadingRead ≤ s.thermoReading then runawayTrip s now
    else { s with lastChangedTemp := now }
  | REFLOW_STATE_REFLOW =>
    if s.thermoReadingRead ≤ s.thermoReading then runawayTrip s now
    else { s with lastChangedTemp := now }
  | REFLOW_STATE_COOL =>
    if s.thermoReadingRead > s.thermoReading then runawayTrip s now
    else { s with lastChangedTemp := now }
  | REFLOW_STATE_COMPLETE => s
  | REFLOW_STATE_TOO_HOT => s
  | REFLOW_STATE_ERROR => s

/-- Whether the sensor is read in this pass:
`millis() - nextRead >= SENSOR_SAMPLING_TIME`. -/
def sampleDue (s : State) (inp : Input) : Prop :=
  ulSub (millis inp) s.nextRead ≥ SENSOR_SAMPLING_TIME

instance (s : State) (inp : Input) : Decidable (sampleDue s inp) := by
  unfold sampleDue; infer_instance

/-- Sensor sampling every `SENSOR_SAMPLING_TIME` ms, with the runaway check
when the reflow process is on. -/
def sampling (s : State) (inp : Input) : State :=
  if sampleDue s inp then
    let s1 : State :=
      { s with nextRead := millis inp,
               thermoReadingRead := s.thermoReading,
               thermoReading := inp.sensor,
               ledPin := true }
    if s1.reflowStatus = REFLOW_STATUS_ON then runaway s1 (millis inp)
    else { s1 with ledPin := false }
  else s

/-- The start branch of `case REFLOW_STATE_IDLE`. -/
def startReflow (s : State) (inp : Input) : State :=
  let s1 : State := { s with windowStartTime := millis inp, setpoint := TEMPERATURE_SOAK_MIN }
  let s2 : State :=
    if s1.reflowProfile = REFLOW_PROFILE_LEADFREE then
      { s1 with soakTemperatureMax := TEMPERATURE_SOAK_MAX_LF,
                reflowTemperatureMax := TEMPERATURE_REFLOW_MAX_LF,
                soakMicroPeriod := SOAK_MICRO_PERIOD_LF }
    else
      { s1 with soakTemperatureMax := TEMPERATURE_SOAK_MAX_PB,
                reflowTemperatureMax := TEMPERATURE_REFLOW_MAX_PB,
                soakMicroPeriod := SOAK_MICRO_PERIOD_PB }
  { s2 with pidOutputLimits := some (0, s2.windowSize),
            pidSampleTime := some PID_SAMPLE_TIME,
            pidAutomatic := true,
            thermoReadingRead := (millis inp : Int),
            reflowState := REFLOW_STATE_PREHEAT }

/-- The switch under the comment "Reflow oven controller state machine", up to
and including `default: break;`. -/
def stateMachine (s : State) (inp : Input) : State :=
  match s.reflowState with
  | REFLOW_STATE_IDLE =>
    if s.thermoReading ≥ TEMPERATURE_ROOM then
      { s with reflowState := REFLOW_STATE_TOO_HOT }
    else if inp.startBtn2 = true then startReflow s inp
    else s
  | REFLOW_STATE_PREHEAT =>
    let s1 : State := { s with reflowStatus := REFLOW_STATUS_ON }
    if s1.thermoReading ≥ TEMPERATURE_SOAK_MIN then
      { s1 with timerSoak := ulAdd (millis inp) s1.soakMicroPeriod,
                pidTunings := PID_SOAK,
                setpoint := TEMPERATURE_SOAK_MIN + SOAK_TEMPERATURE_STEP,
                reflowState := REFLOW_STATE_SOAK }
    else s1
  | REFLOW_STATE_SOAK =>
    if millis inp > s.timerSoak then
      let s1 : State :=
        { s with timerSoak := ulAdd (millis inp) s.soakMicroPeriod,
                 setpoint := s.setpoint + SOAK_TEMPERATURE_STEP }
      if s1.setpoint > (s1.soakTemperatureMax : Int) then
        { s1 with pidTunings := PID_REFLOW,
                  setpoint := (s1.reflowTemperatureMax : Int),
                  reflowState := REFLOW_STATE_REFLOW }
      else s1
    else s
  | REFLOW_STATE_REFLOW =>
    let s1 : State :=
      if s.thermoReading ≥ (s.reflowTemperatureMax : Int) - 10 then
        { s with pidTunings := PID_REFLOW, setpoint := TEMPERATURE_COOL_MIN }
      else s
    if s1.thermoReading ≥ (s1.reflowTemperatureMax : Int) then
      { s1 with reflowState := REFLOW_STATE_COOL }
    else s1
  | REFLOW_STATE_COOL =>
    if s.thermoReading ≤ TEMPERATURE_COOL_MIN then
      { s with buzzerPeriod := ulAdd (millis inp) 1000,
               buzzerPin := true,
               fanPin := true,
               reflowStatus := REFLOW_STATUS_OFF,
               reflowState := REFLOW_STATE_COMPLETE }
    else s
  | REFLOW_STATE_COMPLETE =>
    if millis inp > s.buzzerPeriod then
      { s with reflowState := REFLOW_STATE_TOO_HOT }
    else s
  | REFLOW_STATE_TOO_HOT =>
    if s.thermoReading < TEMPERATURE_ROOM then
      { s with fanPin := false, reflowState := REFLOW_STATE_IDLE }
    else s
  | REFLOW_STATE_ERROR =>
    { s with fanPin := true, ssrPin := false, reflowStatus := REFLOW_STATUS_OFF }

/-- The statements under the comment "PID computation and SSR control".  In the
sketch they stand inside the switch, after `default: break;`, where control
never arrives: `loop` below does not call this function.  It is kept to compare
the heater pin with what these statements would write. -/
def pidAndSsrControl (s : State) (inp : Input) : State :=
  if s.reflowStatus = REFLOW_STATUS_ON then
    let s1 : State := { s with output := inp.pidOutput }
    let s2 : State :=
      if ulSub (millis inp) s1.windowStartTime > s1.windowSize then
        { s1 with windowStartTime := ulAdd s1.windowStartTime s1.windowSize }
      else s1
    if s2.output > (ulSub (millis inp) s2.windowStartTime : Int) then
      { s2 with ssrPin := true }
    else
      { s2 with ssrPin := false }
  else
    if s.ssrPin ≠ false then { s with ssrPin := false } else s

/-- One pass of `loop()`: buttons, sensor sampling with the runaway check, then
the state machine switch. -/
def loop (s : State) (inp : Input) : State :=
  stateMachine (sampling (buttons s inp) inp) inp

/-- The temperature the state machine switch sees in this pass: the fresh
sample when the sensor is read, the previous one otherwise. -/
def reading (s : State) (inp : Input) : Int :=
  if sampleDue s inp then inp.sensor else s.thermoReading

/-- The states the sketch can be in at the start of a pass of `loop()`. -/
inductive Reachable : State → Prop where
  | boot (b : Boot) : Reachable (setup b)
  | pass {s : State} (inp : Input) : Reachable s → Reachable (loop s inp)

/-! ## Predicates used in the statements -/

/-- `soakTemperatureMax` as the start branch loads it for a profile. -/
def soakTemperatureMaxOf : reflowProfile_t → Nat
  | REFLOW_PROFILE_LEADFREE => TEMPERATURE_SOAK_MAX_LF
  | REFLOW_PROFILE_LEADED => TEMPERATURE_SOAK_MAX_PB

/-- `reflowTemperatureMax` as the start branch loads it for a profile. -/
def reflowTemperatureMaxOf : reflowProfile_t → Nat
  | REFLOW_PROFILE_LEADFREE => TEMPERATURE_REFLOW_MAX_LF
  | REFLOW_PROFILE_LEADED => TEMPERATURE_REFLOW_MAX_PB

/-- `soakMicroPeriod` as the start branch loads it for a profile. -/
def soakMicroPeriodOf : reflowProfile_t → Nat
  | REFLOW_PROFILE_LEADFREE => SOAK_MICRO_PERIOD_LF
  | REFLOW_PROFILE_LEADED => SOAK_MICRO_PERIOD_PB

/-- The three profile variables hold the constants of the selected profile. -/
def profileLoaded (s : State) : Prop :=
  s.soakTemperatureMax = soakTemperatureMaxOf s.reflowProfile ∧
    s.reflowTemperatureMax = reflowTemperatureMaxOf s.reflowProfile ∧
    s.soakMicroPeriod = soakMicroPeriodOf s.reflowProfile

instance (s : State) : Decidable (profileLoaded s) := by
  unfold profileLoaded; infer_instance

/-- Invariant of the reachable states: outside the four process stages the
process is off, and inside them the profile variables are those of the selected
profile. -/
def StageInv (s : State) : Prop :=
  match s.reflowState with
  | REFLOW_STATE_PREHEAT => profileLoaded s
  | REFLOW_STATE_SOAK => profileLoaded s
  | REFLOW_STATE_REFLOW => profileLoaded s
  | REFLOW_STATE_COOL => profileLoaded s
  | _ => s.reflowStatus = REFLOW_STATUS_OFF

instance (s : State) : Decidable (StageInv s) := by
  unfold StageInv; split <;> infer_instance

/-- The runaway check trips in this pass: the sampling step puts the stage to
Error. -/
def stallFault (s : State) (inp : Input) : Prop :=
  (buttons s inp).reflowState ≠ REFLOW_STATE_ERROR ∧
    (sampling (buttons s inp) inp).reflowState = REFLOW_STATE_ERROR

instance (s : State) (inp : Input) : Decidable (stallFault s inp) := by
  unfold stallFault; infer_instance

/-- Successive passes of `loop()`, one per input. -/
def run (s : State) : List Input → State
  | [] => s
  | inp :: rest => run (loop s inp) rest

/-! ## Concrete runs used as test points -/

/-- Power-up with the lead-free byte stored, `setup()` ending at 4000 ms. -/
def bootLF : Boot := ⟨0, 4000, false⟩

/-- Power-up of a MAX31855 build whose thermocouple does not answer. -/
def bootFault : Boot := ⟨0, 4000, true⟩

/-- Power-up with the leaded byte stored. -/
def bootPB : Boot := ⟨1, 4000, false⟩

/-- A pass at time `now` with no button pressed; the sensor would return `t`. -/
def quiet (now : Nat) (t : Int) : Input := ⟨now, false, false, false, false, t, false, 0⟩

/-- A pass in which the start test of the Idle case sees a press. -/
def startPress (now : Nat) (t : Int) : Input := ⟨now, false, false, false, false, t, true, 0⟩

/-- A pass in which the stop test sees a press. -/
def stopPress (now : Nat) (t : Int) : Input := ⟨now, true, false, false, false, t, false, 0⟩

/-- A pass with no button pressed in which the PID would ask for `out`. -/
def demand (now : Nat) (t : Int) (out : Int) : Input :=
  ⟨now, false, false, false, false, t, false, out⟩

/-- Lead-free unit, started at 40 degrees, one second into Preheat: the process
is on, the last two samples are 40 and 41. -/
def preheatRunning : State := run (setup bootLF) [startPress 10000 40, quiet 11000 41]

/-- The same run one second later, after a sample that did not rise (41 again). -/
def preheatFlat : State := loop preheatRunning (quiet 12000 41)

/-- A complete lead-free cycle up to the pass that enters Complete. -/
def cycleInputs : List Input :=
  [startPress 10000 40, quiet 11000 150,
   quiet 20001 160, quiet 29002 160, quiet 38003 160, quiet 47004 160, quiet 56005 160,
   quiet 65006 160, quiet 74007 160, quiet 83008 160, quiet 92009 160, quiet 101010 160,
   quiet 102010 250, quiet 103010 100]

/-- The state at the end of `cycleInputs`: stage Complete. -/
def cycleComplete : State := run (setup bootLF) cycleInputs

/-! ## Further predicates and test points -/

/-- Invariant of the reachable states: in Soak, Reflow and Cool the process is
on (these stages are entered only through `case REFLOW_STATE_PREHEAT`, which
switches it on). -/
def RunInv (s : State) : Prop :=
  match s.reflowState with
  | REFLOW_STATE_SOAK => s.reflowStatus = REFLOW_STATUS_ON
  | REFLOW_STATE_REFLOW => s.reflowStatus = REFLOW_STATUS_ON
  | REFLOW_STATE_COOL => s.reflowStatus = REFLOW_STATUS_ON
  | _ => True

instance (s : State) : Decidable (RunInv s) := by
  unfold RunInv; split <;> infer_instance

/-- Invariant of the reachable states: the EEPROM cell holds the byte of the
selected profile. -/
def EepromInv (s : State) : Prop := s.eeprom = profileByte s.reflowProfile

instance (s : State) : Decidable (EepromInv s) := by
  unfold EepromInv; infer_instance

/-- The profile the profile button toggles to. -/
def otherProfile : reflowProfile_t → reflowProfile_t
  | REFLOW_PROFILE_LEADFREE => REFLOW_PROFILE_LEADED
  | REFLOW_PROFILE_LEADED => REFLOW_PROFILE_LEADFREE

/-- Net effect of the up and down buttons of a pass on the setpoint when both
tests are open: `setpoint++` for up, `setpoint--` for down. -/
def nudge (inp : Input) : Int :=
  (if inp.upBtn = true then 1 else 0) - (if inp.downBtn = true then 1 else 0)

/-- The stage case executed in this pass does not assign `setpoint`: Preheat
below `TEMPERATURE_SOAK_MIN`, Soak not after `timerSoak`, Reflow below
`reflowTemperatureMax - 10`, Cool. -/
def setpointHeld (s : State) (inp : Input) : Prop :=
  match s.reflowState with
  | REFLOW_STATE_PREHEAT => reading s inp < TEMPERATURE_SOAK_MIN
  | REFLOW_STATE_SOAK => ¬ millis inp > s.timerSoak
  | REFLOW_STATE_REFLOW => reading s inp < (s.reflowTemperatureMax : Int) - 10
  | REFLOW_STATE_COOL => True
  | _ => False

instance (s : State) (inp : Input) : Decidable (setpointHeld s inp) := by
  unfold setpointHeld; split <;> infer_instance

/-- A pass in which only the up button is pressed. -/
def upPress (now : Nat) (t : Int) : Input := ⟨now, false, false, true, false, t, false, 0⟩

/-- A pass in which only the down button is pressed. -/
def downPress (now : Nat) (t : Int) : Input := ⟨now, false, false, false, true, t, false, 0⟩

/-- A pass in which only the profile button is pressed. -/
def profilePress (now : Nat) (t : Int) : Input := ⟨now, false, true, false, false, t, false, 0⟩

/-- A pass in which the stop test and the profile button both see a press. -/
def stopProfilePress (now : Nat) (t : Int) : Input :=
  ⟨now, true, true, false, false, t, false, 0⟩

/-- Lead-free unit, started at 40 degrees, at the end of the pass that enters
Soak: setpoint 155, `timerSoak` 20000. -/
def soakRunning : State := run (setup bootLF) [startPress 10000 40, quiet 11000 150]

/-- The lead-free cycle of `cycleInputs` one pass before its end: stage Cool. -/
def cycleCool : State := run (setup bootLF) (cycleInputs.take 13)

/-- The lead-free cycle of `cycleInputs` in Reflow (after twelve passes). -/
def cycleReflow : State := run (setup bootLF) (cycleInputs.take 12)

/-- After the complete cycle of `cycleInputs`: the stage goes to TooHot when the
clock passes `buzzerPeriod`, the plate cools to 40 degrees and the stage
returns to Idle. -/
def idleAgain : State := run cycleComplete [quiet 104011 100, quiet 105011 40]

/-- The state after start is pressed a second time, from `idleAgain`. -/
def secondStart : State := loop idleAgain (startPress 106011 40)

/-! ## Runs through Soak -/

/-- A run of passes that all end in Soak, with no press at the stop test, no
nudge and no trip of the runaway check. -/
def soakRun (s : State) : List Input → Prop
  | [] => True
  | inp :: rest =>
    inp.startBtn1 = false ∧ inp.upBtn = false ∧ inp.downBtn = false ∧ ¬ stallFault s inp ∧
      (loop s inp).reflowState = REFLOW_STATE_SOAK ∧ soakRun (loop s inp) rest

/-- Decision procedure for `soakRun`, pass by pass. -/
def soakRunDec : (l : List Input) → (s : State) → Decidable (soakRun s l)
  | [], _ => isTrue trivial
  | inp :: rest, s =>
    have := soakRunDec rest (loop s inp)
    by unfold soakRun; infer_instance

instance (s : State) (l : List Input) : Decidable (soakRun s l) := soakRunDec l s

/-- Number of passes of a run that change the setpoint. -/
def setpointSteps (s : State) : List Input → Nat
  | [] => 0
  | inp :: rest =>
    (if (loop s inp).setpoint = s.setpoint then 0 else 1) + setpointSteps (loop s inp) rest

/-- Lead-free unit, started at 40 degrees, at the end of the pass that enters
Soak with a sample of 160 degrees, at 11000 ms. -/
def soakAt160 : State := run (setup bootLF) [startPress 10000 40, quiet 11000 160]

/-- Seven further passes, one per sampling interval, in which the sensor keeps
returning 160 degrees: the reading is frozen from 11000 ms to 18000 ms. -/
def frozenInputs : List Input :=
  [quiet 12000 160, quiet 13000 160, quiet 14000 160, quiet 15000 160, quiet 16000 160,
   quiet 17000 160, quiet 18000 160]

/-- Lead-free unit left idle at 40 degrees until the millisecond clock is
18296 ms short of wrapping around `2 ^ 32` (49.7 days after power-up), then
started: Preheat, the process still off. -/
def preheatLate : State :=
  run (setup bootLF) [quiet 4294949000 40, startPress 4294950000 40]

/-- The pass that takes `preheatLate` into Soak, 12000 ms before the clock wraps:
`timerSoak` becomes `2 ^ 32 - 3000`. -/
def entryLate : Input := quiet 4294955296 150

/-- Nine passes after `entryLate`, all in Soak: the first is just after
`timerSoak`, whose new value `now + 9000` wraps around to 6001; the others
follow 100 ms apart, each with a clock far above the wrapped deadline. -/
def soakLateInputs : List Input :=
  [quiet 4294964297 160, quiet 4294964397 160, quiet 4294964497 160, quiet 4294964597 160,
   quiet 4294964697 160, quiet 4294964797 160, quiet 4294964897 160, quiet 4294964997 160,
   quiet 4294965097 160]

/-- The pass after `soakLateInputs`, 100 ms later. -/
def exitLate : Input := quiet 4294965197 160

/-- The nine passes of a lead-free Soak of `cycleInputs` that stay in Soak. -/
def cycleSoakInputs : List Input :=
  [quiet 20001 160, quiet 29002 160, quiet 38003 160, quiet 47004 160, quiet 56005 160,
   quiet 65006 160, quiet 74007 160, quiet 83008 160, quiet 92009 160]

/-- Lead-free unit at the end of the pass that processed start at 40 degrees:
Preheat, the process still off. -/
def preheatCold : State := loop (setup bootLF) (startPress 10000 40)

/-! # Lemmas -/

/-! ## Frame lemmas for the button tests -/

/-- The button tests write only stage, status, profile, EEPROM cell and setpoint. -/
theorem buttons_frame (s : State) (inp : Input) :
    buttons s inp =
      { s with reflowState := (buttons s inp).reflowState,
               reflowStatus := (buttons s inp).reflowStatus,
               reflowProfile := (buttons s inp).reflowProfile,
               eeprom := (buttons s inp).eeprom,
               setpoint := (buttons s inp).setpoint } := by
  simp only [buttons, downButton, upButton, profileButton, stopButton]
  split_ifs <;> rfl

theorem buttons_ssrPin (s : State) (inp : Input) : (buttons s inp).ssrPin = s.ssrPin := by
  rw [buttons_frame]

theorem buttons_fanPin (s : State) (inp : Input) : (buttons s inp).fanPin = s.fanPin := by
  rw [buttons_frame]

theorem buttons_thermoReading (s : State) (inp : Input) :
    (buttons s inp).thermoReading = s.thermoReading := by
  rw [buttons_frame]

theorem buttons_nextRead (s : State) (inp : Input) : (buttons s inp).nextRead = s.nextRead := by
  rw [buttons_frame]

theorem buttons_timerSoak (s : State) (inp : Input) : (buttons s inp).timerSoak = s.timerSoak := by
  rw [buttons_frame]

theorem buttons_pidTunings (s : State) (inp : Input) :
    (buttons s inp).pidTunings = s.pidTunings := by
  rw [buttons_frame]

theorem buttons_buzzerPeriod (s : State) (inp : Input) :
    (buttons s inp).buzzerPeriod = s.buzzerPeriod := by
  rw [buttons_frame]

theorem buttons_soakMicroPeriod (s : State) (inp : Input) :
    (buttons s inp).soakMicroPeriod = s.soakMicroPeriod := by
  rw [buttons_frame]

/-- Stage after the four button tests: only the stop test writes it. -/
theorem buttons_reflowState (s : State) (inp : Input) :
    (buttons s inp).reflowState = (stopButton s inp).reflowState := by
  simp only [buttons, downButton, upButton, profileButton]
  split_ifs <;> rfl

/-- Status after the four button tests: only the stop test writes it. -/
theorem buttons_reflowStatus (s : State) (inp : Input) :
    (buttons s inp).reflowStatus = (stopButton s inp).reflowStatus := by
  simp only [buttons, downButton, upButton, profileButton]
  split_ifs <;> rfl

/-- Setpoint after the four button tests when the stop test leaves the process off. -/
theorem buttons_setpoint_off (s : State) (inp : Input)
    (h : (stopButton s inp).reflowStatus = REFLOW_STATUS_OFF) :
    (buttons s inp).setpoint = s.setpoint := by
  have h2 : (stopButton s inp).setpoint = s.setpoint := by
    simp only [stopButton]; split_ifs <;> rfl
  have h1 : (profileButton (stopButton s inp) inp).reflowStatus = REFLOW_STATUS_OFF := by
    rw [← h]; simp only [profileButton]; split_ifs <;> rfl
  have h3 : (profileButton (stopButton s inp) inp).setpoint = s.setpoint := by
    rw [← h2]; simp only [profileButton]; split_ifs <;> rfl
  simp only [buttons, downButton, upButton, h1, ne_eq, not_true_eq_false, and_false,
    if_false, h3]

/-- Without a press at the stop test the buttons leave stage and status alone. -/
theorem buttons_noStop (s : State) (inp : Input) (h : inp.startBtn1 = false) :
    (buttons s inp).reflowState = s.reflowState ∧
      (buttons s inp).reflowStatus = s.reflowStatus := by
  rw [buttons_reflowState, buttons_reflowStatus]
  simp [stopButton, h]

/-- While the process is off and the stage is not Error, no button changes
stage, status or setpoint. -/
theorem buttons_off (s : State) (inp : Input) (h : s.reflowStatus = REFLOW_STATUS_OFF)
    (he : s.reflowState ≠ REFLOW_STATE_ERROR) :
    (buttons s inp).reflowState = s.reflowState ∧
      (buttons s inp).reflowStatus = REFLOW_STATUS_OFF ∧
      (buttons s inp).setpoint = s.setpoint := by
  have hst : stopButton s inp = s := by simp [stopButton, h, he]
  refine ⟨?_, ?_, ?_⟩
  · rw [buttons_reflowState, hst]
  · rw [buttons_reflowStatus, hst, h]
  · exact buttons_setpoint_off s inp (by rw [hst, h])

/-- A press at the stop test while the process is on, or in stage Error, gives
Idle with the process off. -/
theorem buttons_stop (s : State) (inp : Input) (h : inp.startBtn1 = true)
    (hs : s.reflowStatus = REFLOW_STATUS_ON ∨ s.reflowState = REFLOW_STATE_ERROR) :
    (buttons s inp).reflowState = REFLOW_STATE_IDLE ∧
      (buttons s inp).reflowStatus = REFLOW_STATUS_OFF := by
  rw [buttons_reflowState, buttons_reflowStatus]
  simp [stopButton, h, hs]

/-! ## Lemmas on the sampling step -/

/-- The sampling step writes only the two readings, `nextRead`, the LED pin,
and, through the runaway check, stage, status and `lastChangedTemp`. -/
theorem sampling_frame (s : State) (inp : Input) :
    sampling s inp =
      { s with reflowState := (sampling s inp).reflowState,
               reflowStatus := (sampling s inp).reflowStatus,
               thermoReading := (sampling s inp).thermoReading,
               thermoReadingRead := (sampling s inp).thermoReadingRead,
               nextRead := (sampling s inp).nextRead,
               lastChangedTemp := (sampling s inp).lastChangedTemp,
               ledPin := (sampling s inp).ledPin } := by
  obtain ⟨st, status⟩ := s
  cases st <;> cases status <;> simp only [sampling, runaway, runawayTrip] <;> split_ifs <;> rfl

theorem sampling_ssrPin (s : State) (inp : Input) : (sampling s inp).ssrPin = s.ssrPin := by
  rw [sampling_frame]

theorem sampling_fanPin (s : State) (inp : Input) : (sampling s inp).fanPin = s.fanPin := by
  rw [sampling_frame]

theorem sampling_setpoint (s : State) (inp : Input) :
    (sampling s inp).setpoint = s.setpoint := by
  rw [sampling_frame]

theorem sampling_timerSoak (s : State) (inp : Input) :
    (sampling s inp).timerSoak = s.timerSoak := by
  rw [sampling_frame]

theorem sampling_pidTunings (s : State) (inp : Input) :
    (sampling s inp).pidTunings = s.pidTunings := by
  rw [sampling_frame]

theorem sampling_buzzerPeriod (s : State) (inp : Input) :
    (sampling s inp).buzzerPeriod = s.buzzerPeriod := by
  rw [sampling_frame]

theorem sampling_soakMicroPeriod (s : State) (inp : Input) :
    (sampling s inp).soakMicroPeriod = s.soakMicroPeriod := by
  rw [sampling_frame]

/-- The state machine sees `reading`. -/
theorem sampling_thermoReading (s : State) (inp : Input) :
    (sampling s inp).thermoReading = reading s inp := by
  obtain ⟨st, status⟩ := s
  cases st <;> cases status <;> simp only [sampling, runaway, runawayTrip, reading] <;>
    split_ifs <;> rfl

theorem reading_buttons (s : State) (inp : Input) :
    reading (buttons s inp) inp = reading s inp := by
  simp only [reading, sampleDue, buttons_nextRead, buttons_thermoReading]

/-- The sampling step either keeps stage and status or trips to Error with the
process off. -/
theorem sampling_cases (s : State) (inp : Input) :
    ((sampling s inp).reflowState = s.reflowState ∧
        (sampling s inp).reflowStatus = s.reflowStatus) ∨
      ((sampling s inp).reflowState = REFLOW_STATE_ERROR ∧
        (sampling s inp).reflowStatus = REFLOW_STATUS_OFF) := by
  obtain ⟨st, status⟩ := s
  cases st <;> cases status <;> simp only [sampling, runaway, runawayTrip] <;>
    split_ifs <;> simp

/-- While the process is off the sampling step keeps stage and status. -/
theorem sampling_off (s : State) (inp : Input) (h : s.reflowStatus = REFLOW_STATUS_OFF) :
    (sampling s inp).reflowState = s.reflowState ∧
      (sampling s inp).reflowStatus = REFLOW_STATUS_OFF := by
  simp only [sampling, h]
  split_ifs <;> simp_all

/-! ## The heater pin -/

theorem stateMachine_ssrPin (s : State) (inp : Input) (h : s.ssrPin = false) :
    (stateMachine s inp).ssrPin = false := by
  unfold stateMachine startReflow
  split <;> (try dsimp only) <;> (try split_ifs) <;> exact h

theorem loop_ssrPin (s : State) (inp : Input) (h : s.ssrPin = false) :
    (loop s inp).ssrPin = false := by
  unfold loop
  apply stateMachine_ssrPin
  rw [sampling_ssrPin, buttons_ssrPin, h]

theorem reachable_ssrPin {s : State} (h : Reachable s) : s.ssrPin = false := by
  induction h with
  | boot b => rfl
  | pass inp _ ih => exact loop_ssrPin _ inp ih

/-! ## Invariants of the reachable states -/

theorem stopButton_inv (s : State) (inp : Input) (h : StageInv s) :
    StageInv (stopButton s inp) := by
  simp only [stopButton]
  split_ifs
  · simp only [StageInv]
  · exact h

theorem profileButton_inv (s : State) (inp : Input) (h : StageInv s) :
    StageInv (profileButton s inp) := by
  simp only [profileButton]
  split_ifs with h1 h2
  · unfold StageInv at h ⊢
    rw [h1.2] at h
    simp only [h1.2]
    exact h
  · unfold StageInv at h ⊢
    rw [h1.2] at h
    simp only [h1.2]
    exact h
  · exact h

theorem upButton_inv (s : State) (inp : Input) (h : StageInv s) :
    StageInv (upButton s inp) := by
  simp only [upButton]
  split_ifs
  · exact h
  · exact h

theorem downButton_inv (s : State) (inp : Input) (h : StageInv s) :
    StageInv (downButton s inp) := by
  simp only [downButton]
  split_ifs
  · exact h
  · exact h

theorem buttons_inv (s : State) (inp : Input) (h : StageInv s) :
    StageInv (buttons s inp) :=
  downButton_inv _ inp (upButton_inv _ inp (profileButton_inv _ inp (stopButton_inv s inp h)))

theorem runaway_inv (s : State) (now : Nat) (h : StageInv s) : StageInv (runaway s now) := by
  unfold runaway runawayTrip
  unfold StageInv at h
  cases hst : s.reflowState <;> rw [hst] at h <;> dsimp only at h ⊢ <;>
    (try split_ifs) <;> simp only [StageInv, hst, profileLoaded] <;>
    exact h

theorem sampling_inv (s : State) (inp : Input) (h : StageInv s) :
    StageInv (sampling s inp) := by
  simp only [sampling]
  split_ifs
  · exact runaway_inv _ _ h
  · exact h
  · exact h

theorem stateMachine_inv (s : State) (inp : Input) (h : StageInv s) :
    StageInv (stateMachine s inp) := by
  unfold stateMachine startReflow
  unfold StageInv at h
  cases hst : s.reflowState <;> rw [hst] at h <;> dsimp only at h ⊢ <;>
    (try split_ifs) <;> simp only [StageInv, hst, profileLoaded] <;>
    first
    | exact h
    | rfl
    | (cases hq : s.reflowProfile <;>
        simp_all [soakTemperatureMaxOf, reflowTemperatureMaxOf, soakMicroPeriodOf])

theorem loop_inv (s : State) (inp : Input) (h : StageInv s) : StageInv (loop s inp) :=
  stateMachine_inv _ inp (sampling_inv _ inp (buttons_inv s inp h))

theorem reachable_inv {s : State} (h : Reachable s) : StageInv s := by
  induction h with
  | boot b =>
    unfold StageInv setup
    by_cases hb : b.thermocoupleFault = true <;> simp [hb]
  | pass inp _ ih => exact loop_inv _ inp ih

/-! ## The cases of the state machine switch -/

theorem stateMachine_idle (t : State) (inp : Input) (h : t.reflowState = REFLOW_STATE_IDLE) :
    stateMachine t inp =
      if t.thermoReading ≥ TEMPERATURE_ROOM then { t with reflowState := REFLOW_STATE_TOO_HOT }
      else if inp.startBtn2 = true then startReflow t inp
      else t := by
  simp only [stateMachine, h]

theorem stateMachine_preheat (t : State) (inp : Input)
    (h : t.reflowState = REFLOW_STATE_PREHEAT) :
    stateMachine t inp =
      if t.thermoReading ≥ TEMPERATURE_SOAK_MIN then
        { t with reflowStatus := REFLOW_STATUS_ON,
                 timerSoak := ulAdd (millis inp) t.soakMicroPeriod,
                 pidTunings := PID_SOAK,
                 setpoint := TEMPERATURE_SOAK_MIN + SOAK_TEMPERATURE_STEP,
                 reflowState := REFLOW_STATE_SOAK }
      else { t with reflowStatus := REFLOW_STATUS_ON } := by
  simp only [stateMachine, h]

theorem stateMachine_complete (t : State) (inp : Input)
    (h : t.reflowState = REFLOW_STATE_COMPLETE) :
    stateMachine t inp =
      if millis inp > t.buzzerPeriod then { t with reflowState := REFLOW_STATE_TOO_HOT }
      else t := by
  simp only [stateMachine, h]

theorem stateMachine_tooHot (t : State) (inp : Input)
    (h : t.reflowState = REFLOW_STATE_TOO_HOT) :
    stateMachine t inp =
      if t.thermoReading < TEMPERATURE_ROOM then
        { t with fanPin := false, reflowState := REFLOW_STATE_IDLE }
      else t := by
  simp only [stateMachine, h]

theorem stateMachine_error (t : State) (inp : Input)
    (h : t.reflowState = REFLOW_STATE_ERROR) :
    stateMachine t inp =
      { t with fanPin := true, ssrPin := false, reflowStatus := REFLOW_STATUS_OFF } := by
  simp only [stateMachine, h]

/-- What a pass does from stage Idle with the process off, as seen after the
sampling step. -/
theorem loop_from_idle (s : State) (inp : Input)
    (hst : (sampling (buttons s inp) inp).reflowState = REFLOW_STATE_IDLE)
    (hoff : (sampling (buttons s inp) inp).reflowStatus = REFLOW_STATUS_OFF) :
    (loop s inp).reflowStatus = REFLOW_STATUS_OFF ∧
      (reading s inp ≥ TEMPERATURE_ROOM →
        (loop s inp).reflowState = REFLOW_STATE_TOO_HOT ∧
          (loop s inp).setpoint = (buttons s inp).setpoint) ∧
      (reading s inp < TEMPERATURE_ROOM → inp.startBtn2 = false →
        (loop s inp).reflowState = REFLOW_STATE_IDLE) ∧
      (reading s inp < TEMPERATURE_ROOM → inp.startBtn2 = true →
        (loop s inp).reflowState = REFLOW_STATE_PREHEAT ∧
          (loop s inp).setpoint = TEMPERATURE_SOAK_MIN) := by
  have hr : (sampling (buttons s inp) inp).thermoReading = reading s inp := by
    rw [sampling_thermoReading, reading_buttons]
  have hsp : (sampling (buttons s inp) inp).setpoint = (buttons s inp).setpoint :=
    sampling_setpoint _ _
  unfold loop
  rw [stateMachine_idle _ _ hst, hr]
  refine ⟨?_, ?_, ?_, ?_⟩
  · split_ifs
    · exact hoff
    · simp only [startReflow]; split_ifs <;> exact hoff
    · exact hoff
  · intro h
    rw [if_pos h]
    exact ⟨rfl, hsp⟩
  · intro h hb
    rw [if_neg (not_le.mpr h), hb]
    exact hst
  · intro h hb
    rw [if_neg (not_le.mpr h), if_pos hb]
    unfold startReflow
    dsimp only
    split_ifs <;> exact ⟨rfl, rfl⟩

/-- From Preheat with the process still off, the next pass switches it on,
whatever its inputs. -/
theorem preheat_switches_on (s : State) (inp : Input)
    (hp : s.reflowState = REFLOW_STATE_PREHEAT) (hoff : s.reflowStatus = REFLOW_STATUS_OFF) :
    (loop s inp).reflowStatus = REFLOW_STATUS_ON := by
  have hb := buttons_off s inp hoff (by rw [hp]; decide)
  have ht := sampling_off (buttons s inp) inp hb.2.1
  rw [hb.1, hp] at ht
  unfold loop
  rw [stateMachine_preheat _ _ ht.1]
  split_ifs <;> rfl

/-! ## The concrete runs are reachable -/

theorem reachable_run {s : State} (h : Reachable s) (l : List Input) : Reachable (run s l) := by
  induction l generalizing s with
  | nil => exact h
  | cons inp rest ih => exact ih (Reachable.pass inp h)

theorem reachable_preheatRunning : Reachable preheatRunning :=
  reachable_run (Reachable.boot bootLF) _

theorem reachable_cycleComplete : Reachable cycleComplete :=
  reachable_run (Reachable.boot bootLF) _

/-! ## The claims -/

set_option maxRecDepth 100000


/-- C1: from every reachable state, whatever the clock, the sensor value, the
buttons and the PID output of the pass, a pass that ends with the process off
leaves the heater pin LOW. -/
theorem heater_off_when_not_running (s : State) (inp : Input) (hs : Reachable s) :
    (loop s inp).reflowStatus = REFLOW_STATUS_OFF → (loop s inp).ssrPin = false :=
  fun _ => loop_ssrPin s inp (reachable_ssrPin hs)

/-- Instance of C1 at the first pass after power-up. -/
theorem heater_off_when_not_running_witness :
    Reachable (setup bootLF) ∧
      (loop (setup bootLF) (demand 10000 40 2000)).reflowStatus = REFLOW_STATUS_OFF ∧
      (loop (setup bootLF) (demand 10000 40 2000)).ssrPin = false :=
  ⟨Reachable.boot bootLF, by decide,
    heater_off_when_not_running (setup bootLF) (demand 10000 40 2000) (Reachable.boot bootLF)
      (by decide)⟩

/-- C2, evaluated on the code: one second into Preheat of a lead-free run the
process is on and the PID asks for 2000 ms of a window of which 1500 ms have
elapsed, so the time-proportioning statements would switch the heater on
(`pidAndSsrControl`); the pass leaves the heater pin LOW, because these
statements are not executed. -/
theorem heater_not_driven_while_running :
    Reachable preheatRunning ∧
      (loop preheatRunning (demand 11500 41 2000)).reflowStatus = REFLOW_STATUS_ON ∧
      ulSub (millis (demand 11500 41 2000))
        (loop preheatRunning (demand 11500 41 2000)).windowStartTime = 1500 ∧
      (demand 11500 41 2000).pidOutput > 1500 ∧
      (loop preheatRunning (demand 11500 41 2000)).ssrPin = false ∧
      (pidAndSsrControl (loop preheatRunning (demand 11500 41 2000))
        (demand 11500 41 2000)).ssrPin = true :=
  ⟨reachable_preheatRunning, by decide, by decide, by decide, by decide, by decide⟩

/-- C3, evaluated on the code: in Preheat with the process on, a sample that
is not greater than the previous one (41 after 41), taken 12000 ms after
`lastChangedTemp`, raises no fault: the stage stays Preheat, the process stays
on and `lastChangedTemp` is set to the clock. -/
theorem stalled_reading_raises_no_fault :
    Reachable preheatRunning ∧
      preheatRunning.reflowState = REFLOW_STATE_PREHEAT ∧
      preheatRunning.reflowStatus = REFLOW_STATUS_ON ∧
      sampleDue preheatRunning (quiet 12000 41) ∧
      (quiet 12000 41).sensor ≤ preheatRunning.thermoReading ∧
      ulSub (millis (quiet 12000 41)) preheatRunning.lastChangedTemp = 12000 ∧
      (loop preheatRunning (quiet 12000 41)).reflowState = REFLOW_STATE_PREHEAT ∧
      (loop preheatRunning (quiet 12000 41)).reflowStatus = REFLOW_STATUS_ON ∧
      (loop preheatRunning (quiet 12000 41)).lastChangedTemp = 12000 :=
  ⟨reachable_preheatRunning, by decide, by decide, by decide, by decide, by decide, by decide,
    by decide, by decide⟩

/-- C4, evaluated on the code: in Preheat with the process on, a sample that
rose (42 after 41) 1000 ms after `lastChangedTemp` makes the runaway check
trip: the stage becomes Error, the process goes off, and `lastChangedTemp`
keeps its old value 12000 instead of the clock value 13000. -/
theorem rising_reading_raises_fault :
    Reachable preheatFlat ∧
      preheatFlat.reflowState = REFLOW_STATE_PREHEAT ∧
      preheatFlat.reflowStatus = REFLOW_STATUS_ON ∧
      sampleDue preheatFlat (quiet 13000 42) ∧
      preheatFlat.thermoReading < (quiet 13000 42).sensor ∧
      (loop preheatFlat (quiet 13000 42)).reflowState = REFLOW_STATE_ERROR ∧
      (loop preheatFlat (quiet 13000 42)).reflowStatus = REFLOW_STATUS_OFF ∧
      (loop preheatFlat (quiet 13000 42)).lastChangedTemp = 12000 ∧
      millis (quiet 13000 42) = 13000 :=
  ⟨Reachable.pass _ reachable_preheatRunning, by decide, by decide, by decide, by decide,
    by decide, by decide, by decide, by decide⟩

/-- C5: a pass that starts in stage Error and sees no press at the stop test
ends in stage Error with the process off, the heater pin LOW and the fan pin
HIGH, whatever the clock, the sensor value and the other buttons. -/
theorem error_is_latched (s : State) (inp : Input)
    (herr : s.reflowState = REFLOW_STATE_ERROR) (hno : inp.startBtn1 = false) :
    (loop s inp).reflowState = REFLOW_STATE_ERROR ∧
      (loop s inp).reflowStatus = REFLOW_STATUS_OFF ∧
      (loop s inp).ssrPin = false ∧
      (loop s inp).fanPin = true := by
  have hb : (buttons s inp).reflowState = REFLOW_STATE_ERROR := by
    rw [(buttons_noStop s inp hno).1, herr]
  have ht : (sampling (buttons s inp) inp).reflowState = REFLOW_STATE_ERROR := by
    rcases sampling_cases (buttons s inp) inp with h | h
    · rw [h.1, hb]
    · exact h.1
  unfold loop
  rw [stateMachine_error _ _ ht]
  exact ⟨ht, rfl, rfl, rfl⟩

/-- Instance of C5: a unit whose thermocouple failed at power-up, one pass. -/
theorem error_is_latched_witness :
    (setup bootFault).reflowState = REFLOW_STATE_ERROR ∧
      (loop (setup bootFault) (startPress 10000 40)).reflowState = REFLOW_STATE_ERROR ∧
      (loop (setup bootFault) (startPress 10000 40)).reflowStatus = REFLOW_STATUS_OFF ∧
      (loop (setup bootFault) (startPress 10000 40)).ssrPin = false ∧
      (loop (setup bootFault) (startPress 10000 40)).fanPin = true :=
  ⟨by decide, error_is_latched (setup bootFault) (startPress 10000 40) (by decide) (by decide)⟩

/-- C6 as stated fails: a running Preheat stopped while the plate reads 60
degrees ends the pass in stage TooHot, not Idle. -/
theorem stop_while_hot_ends_tooHot :
    Reachable preheatRunning ∧
      preheatRunning.reflowStatus = REFLOW_STATUS_ON ∧
      preheatRunning.reflowState = REFLOW_STATE_PREHEAT ∧
      (stopPress 12000 60).startBtn1 = true ∧
      (loop preheatRunning (stopPress 12000 60)).reflowState = REFLOW_STATE_TOO_HOT ∧
      (loop preheatRunning (stopPress 12000 60)).reflowState ≠ REFLOW_STATE_IDLE :=
  ⟨reachable_preheatRunning, by decide, by decide, by decide, by decide, by decide⟩

/-- C6 amended: from every state with the process on, a pass that sees a press
at the stop test ends with the process off; the stage at the end is TooHot when
the reading is at least `TEMPERATURE_ROOM`, Idle when it is below and the start
test sees no press, Preheat when it is below and the start test sees a press. -/
theorem stop_while_running (s : State) (inp : Input)
    (hon : s.reflowStatus = REFLOW_STATUS_ON) (hstop : inp.startBtn1 = true) :
    (loop s inp).reflowStatus = REFLOW_STATUS_OFF ∧
      (reading s inp ≥ TEMPERATURE_ROOM → (loop s inp).reflowState = REFLOW_STATE_TOO_HOT) ∧
      (reading s inp < TEMPERATURE_ROOM → inp.startBtn2 = false →
        (loop s inp).reflowState = REFLOW_STATE_IDLE) ∧
      (reading s inp < TEMPERATURE_ROOM → inp.startBtn2 = true →
        (loop s inp).reflowState = REFLOW_STATE_PREHEAT) := by
  have hb := buttons_stop s inp hstop (Or.inl hon)
  have ht := sampling_off (buttons s inp) inp hb.2
  rw [hb.1] at ht
  have h := loop_from_idle s inp ht.1 ht.2
  exact ⟨h.1, fun hr => (h.2.1 hr).1, h.2.2.1, fun hr hp => (h.2.2.2 hr hp).1⟩

/-- Instance of C6 amended: the running Preheat stopped at 30 degrees. -/
theorem stop_while_running_witness :
    preheatRunning.reflowStatus = REFLOW_STATUS_ON ∧
      (loop preheatRunning (stopPress 12000 30)).reflowStatus = REFLOW_STATUS_OFF ∧
      (loop preheatRunning (stopPress 12000 30)).reflowState = REFLOW_STATE_IDLE :=
  ⟨by decide,
    (stop_while_running preheatRunning (stopPress 12000 30) (by decide) (by decide)).1,
    (stop_while_running preheatRunning (stopPress 12000 30) (by decide) (by decide)).2.2.1
      (by decide) (by decide)⟩

/-- C7 as stated fails: at the end of a complete lead-free cycle the stage is
Complete with the process off, and a pass that sees a press at the stop test
leaves the stage Complete, not Idle. -/
theorem stop_ignored_in_complete :
    Reachable cycleComplete ∧
      cycleComplete.reflowState = REFLOW_STATE_COMPLETE ∧
      cycleComplete.reflowStatus = REFLOW_STATUS_OFF ∧
      (stopPress 103500 100).startBtn1 = true ∧
      (loop cycleComplete (stopPress 103500 100)).reflowState = REFLOW_STATE_COMPLETE ∧
      (loop cycleComplete (stopPress 103500 100)).reflowState ≠ REFLOW_STATE_IDLE :=
  ⟨reachable_cycleComplete, by decide, by decide, by decide, by decide, by decide⟩

/-- C7 amended: the stop test acts only while the process is on or the stage is
Error.  From a reachable state, a pass that sees a press at the stop test ends
with the process off and
* from Complete follows the rule of Complete: TooHot once the clock has passed
  `buzzerPeriod`, Complete before;
* from TooHot follows the rule of TooHot: Idle when the reading is below
  `TEMPERATURE_ROOM`, TooHot otherwise;
* from Error goes through Idle: the pass ends in TooHot when the reading is at
  least `TEMPERATURE_ROOM`, in Idle when it is below and the start test sees no
  press, in Preheat when it is below and the start test sees a press. -/
theorem stop_outside_run (s : State) (inp : Input) (hs : Reachable s)
    (hstop : inp.startBtn1 = true) :
    (s.reflowState = REFLOW_STATE_COMPLETE →
        (loop s inp).reflowStatus = REFLOW_STATUS_OFF ∧
        (millis inp > s.buzzerPeriod → (loop s inp).reflowState = REFLOW_STATE_TOO_HOT) ∧
        (¬ millis inp > s.buzzerPeriod → (loop s inp).reflowState = REFLOW_STATE_COMPLETE)) ∧
      (s.reflowState = REFLOW_STATE_TOO_HOT →
        (loop s inp).reflowStatus = REFLOW_STATUS_OFF ∧
        (reading s inp < TEMPERATURE_ROOM → (loop s inp).reflowState = REFLOW_STATE_IDLE) ∧
        (reading s inp ≥ TEMPERATURE_ROOM → (loop s inp).reflowState = REFLOW_STATE_TOO_HOT)) ∧
      (s.reflowState = REFLOW_STATE_ERROR →
        (loop s inp).reflowStatus = REFLOW_STATUS_OFF ∧
        (reading s inp ≥ TEMPERATURE_ROOM → (loop s inp).reflowState = REFLOW_STATE_TOO_HOT) ∧
        (reading s inp < TEMPERATURE_ROOM → inp.startBtn2 = false →
          (loop s inp).reflowState = REFLOW_STATE_IDLE) ∧
        (reading s inp < TEMPERATURE_ROOM → inp.startBtn2 = true →
          (loop s inp).reflowState = REFLOW_STATE_PREHEAT)) := by
  have hinv := reachable_inv hs
  have hr : (sampling (buttons s inp) inp).thermoReading = reading s inp := by
    rw [sampling_thermoReading, reading_buttons]
  refine ⟨?_, ?_, ?_⟩
  · intro hc
    have hoff : s.reflowStatus = REFLOW_STATUS_OFF := by
      unfold StageInv at hinv; rw [hc] at hinv; exact hinv
    have hb := buttons_off s inp hoff (by rw [hc]; decide)
    have ht := sampling_off (buttons s inp) inp hb.2.1
    rw [hb.1, hc] at ht
    have hbz : (sampling (buttons s inp) inp).buzzerPeriod = s.buzzerPeriod := by
      rw [sampling_buzzerPeriod, buttons_buzzerPeriod]
    unfold loop
    rw [stateMachine_complete _ _ ht.1, hbz]
    refine ⟨?_, ?_, ?_⟩
    · split_ifs <;> exact ht.2
    · intro h; rw [if_pos h]
    · intro h; rw [if_neg h]; exact ht.1
  · intro hc
    have hoff : s.reflowStatus = REFLOW_STATUS_OFF := by
      unfold StageInv at hinv; rw [hc] at hinv; exact hinv
    have hb := buttons_off s inp hoff (by rw [hc]; decide)
    have ht := sampling_off (buttons s inp) inp hb.2.1
    rw [hb.1, hc] at ht
    unfold loop
    rw [stateMachine_tooHot _ _ ht.1, hr]
    refine ⟨?_, ?_, ?_⟩
    · split_ifs <;> exact ht.2
    · intro h; rw [if_pos h]
    · intro h; rw [if_neg (not_lt.mpr h)]; exact ht.1
  · intro hc
    have hb := buttons_stop s inp hstop (Or.inr hc)
    have ht := sampling_off (buttons s inp) inp hb.2
    rw [hb.1] at ht
    have h := loop_from_idle s inp ht.1 ht.2
    exact ⟨h.1, fun hr => (h.2.1 hr).1, h.2.2.1, fun hr hp => (h.2.2.2 hr hp).1⟩

/-- Instance of C7 amended: the stop press at the end of the complete cycle. -/
theorem stop_outside_run_witness :
    Reachable cycleComplete ∧ (stopPress 103500 100).startBtn1 = true ∧
      (loop cycleComplete (stopPress 103500 100)).reflowStatus = REFLOW_STATUS_OFF ∧
      (loop cycleComplete (stopPress 103500 100)).reflowState = REFLOW_STATE_COMPLETE :=
  ⟨reachable_cycleComplete, by decide,
    ((stop_outside_run cycleComplete (stopPress 103500 100) reachable_cycleComplete
      (by decide)).1 (by decide)).1,
    ((stop_outside_run cycleComplete (stopPress 103500 100) reachable_cycleComplete
      (by decide)).1 (by decide)).2.2 (by decide)⟩

/-- C8 as stated fails: for both profiles the pass that starts the cycle at 49
degrees ends in Preheat with setpoint 150 but with the process still off. -/
theorem start_pass_not_yet_running :
    ((setup bootLF).reflowState = REFLOW_STATE_IDLE ∧
        (setup bootLF).reflowStatus = REFLOW_STATUS_OFF ∧
        (setup bootLF).reflowProfile = REFLOW_PROFILE_LEADFREE ∧
        reading (setup bootLF) (startPress 10000 49) = 49 ∧
        (loop (setup bootLF) (startPress 10000 49)).reflowState = REFLOW_STATE_PREHEAT ∧
        (loop (setup bootLF) (startPress 10000 49)).setpoint = 150 ∧
        (loop (setup bootLF) (startPress 10000 49)).reflowStatus ≠ REFLOW_STATUS_ON) ∧
      ((setup bootPB).reflowState = REFLOW_STATE_IDLE ∧
        (setup bootPB).reflowStatus = REFLOW_STATUS_OFF ∧
        (setup bootPB).reflowProfile = REFLOW_PROFILE_LEADED ∧
        reading (setup bootPB) (startPress 10000 49) = 49 ∧
        (loop (setup bootPB) (startPress 10000 49)).reflowState = REFLOW_STATE_PREHEAT ∧
        (loop (setup bootPB) (startPress 10000 49)).setpoint = 150 ∧
        (loop (setup bootPB) (startPress 10000 49)).reflowStatus ≠ REFLOW_STATUS_ON) :=
  ⟨⟨by decide, by decide, by decide, by decide, by decide, by decide, by decide⟩,
    ⟨by decide, by decide, by decide, by decide, by decide, by decide, by decide⟩⟩

/-- C8 amended: for every profile, a pass that starts in Idle with the process
off, reads `TEMPERATURE_ROOM - 1` and sees a press at the start test ends in
Preheat with setpoint `TEMPERATURE_SOAK_MIN` and the process still off; the
process is on at the end of the following pass, whatever that pass receives. -/
theorem start_from_cold (s : State) (inp : Input)
    (hidle : s.reflowState = REFLOW_STATE_IDLE) (hoff : s.reflowStatus = REFLOW_STATUS_OFF)
    (hr : reading s inp = TEMPERATURE_ROOM - 1) (hstart : inp.startBtn2 = true) :
    (loop s inp).reflowState = REFLOW_STATE_PREHEAT ∧
      (loop s inp).setpoint = TEMPERATURE_SOAK_MIN ∧
      (loop s inp).reflowStatus = REFLOW_STATUS_OFF ∧
      ∀ next : Input, (loop (loop s inp) next).reflowStatus = REFLOW_STATUS_ON := by
  have hb := buttons_off s inp hoff (by rw [hidle]; decide)
  have ht := sampling_off (buttons s inp) inp hb.2.1
  rw [hb.1, hidle] at ht
  have h := loop_from_idle s inp ht.1 ht.2
  have hlt : reading s inp < TEMPERATURE_ROOM := by rw [hr]; decide
  have h2 := h.2.2.2 hlt hstart
  exact ⟨h2.1, h2.2, h.1, fun next => preheat_switches_on _ next h2.1 h.1⟩

/-- Instance of C8 amended: the leaded unit started at 49 degrees, then a
second pass. -/
theorem start_from_cold_witness :
    (loop (setup bootPB) (startPress 10000 49)).reflowState = REFLOW_STATE_PREHEAT ∧
      (loop (setup bootPB) (startPress 10000 49)).setpoint = 150 ∧
      (loop (setup bootPB) (startPress 10000 49)).reflowStatus = REFLOW_STATUS_OFF ∧
      (loop (loop (setup bootPB) (startPress 10000 49)) (quiet 10001 49)).reflowStatus =
        REFLOW_STATUS_ON :=
  have h := start_from_cold (setup bootPB) (startPress 10000 49) (by decide) (by decide)
    (by decide) (by decide)
  ⟨h.1, h.2.1, h.2.2.1, h.2.2.2 (quiet 10001 49)⟩

/-- C9: from every reachable state in stage Idle, a pass whose reading is at
least `TEMPERATURE_ROOM` ends in stage TooHot (so not in Preheat) with status
and setpoint unchanged, whatever buttons are pressed. -/
theorem hot_plate_cannot_start (s : State) (inp : Input) (hs : Reachable s)
    (hidle : s.reflowState = REFLOW_STATE_IDLE) (hhot : reading s inp ≥ TEMPERATURE_ROOM) :
    (loop s inp).reflowState = REFLOW_STATE_TOO_HOT ∧
      (loop s inp).reflowState ≠ REFLOW_STATE_PREHEAT ∧
      (loop s inp).reflowStatus = s.reflowStatus ∧
      (loop s inp).setpoint = s.setpoint := by
  have hinv := reachable_inv hs
  have hoff : s.reflowStatus = REFLOW_STATUS_OFF := by
    unfold StageInv at hinv; rw [hidle] at hinv; exact hinv
  have hb := buttons_off s inp hoff (by rw [hidle]; decide)
  have ht := sampling_off (buttons s inp) inp hb.2.1
  rw [hb.1, hidle] at ht
  have h := loop_from_idle s inp ht.1 ht.2
  have h2 := h.2.1 hhot
  refine ⟨h2.1, ?_, ?_, ?_⟩
  · rw [h2.1]; decide
  · rw [h.1, hoff]
  · rw [h2.2, hb.2.2]

/-- Instance of C9: the unit powered up, the plate at 60 degrees, start pressed. -/
theorem hot_plate_cannot_start_witness :
    Reachable (setup bootLF) ∧ (setup bootLF).reflowState = REFLOW_STATE_IDLE ∧
      reading (setup bootLF) (startPress 10000 60) ≥ TEMPERATURE_ROOM ∧
      (loop (setup bootLF) (startPress 10000 60)).reflowState = REFLOW_STATE_TOO_HOT :=
  ⟨Reachable.boot bootLF, by decide, by decide,
    (hot_plate_cannot_start (setup bootLF) (startPress 10000 60) (Reachable.boot bootLF)
      (by decide) (by decide)).1⟩

/-- C10: from every reachable state in stage Preheat, a pass with no press at
the stop test and no trip of the runaway check
* with a reading of at least `TEMPERATURE_SOAK_MIN` ends in stage Soak with
  setpoint `TEMPERATURE_SOAK_MIN + SOAK_TEMPERATURE_STEP` (155), the Soak gains
  and `timerSoak` equal to the clock plus `soakMicroPeriod` (in `unsigned long`
  arithmetic, so the plain sum when it does not overflow), where
  `soakMicroPeriod` is the period of the selected profile;
* with a lower reading stays in Preheat and keeps `timerSoak` and the gains. -/
theorem preheat_to_soak (s : State) (inp : Input) (hs : Reachable s)
    (hpre : s.reflowState = REFLOW_STATE_PREHEAT) (hno : inp.startBtn1 = false)
    (hnf : ¬ stallFault s inp) :
    (reading s inp ≥ TEMPERATURE_SOAK_MIN →
        (loop s inp).reflowState = REFLOW_STATE_SOAK ∧
        (loop s inp).setpoint = 155 ∧
        (loop s inp).pidTunings = ⟨300, 0.05, 250⟩ ∧
        (loop s inp).timerSoak = ulAdd (millis inp) s.soakMicroPeriod ∧
        s.soakMicroPeriod = soakMicroPeriodOf s.reflowProfile ∧
        (millis inp + s.soakMicroPeriod < ULONG_RANGE →
          (loop s inp).timerSoak = millis inp + s.soakMicroPeriod)) ∧
      (reading s inp < TEMPERATURE_SOAK_MIN →
        (loop s inp).reflowState = REFLOW_STATE_PREHEAT ∧
        (loop s inp).timerSoak = s.timerSoak ∧
        (loop s inp).pidTunings = s.pidTunings) := by
  have hinv := reachable_inv hs
  have hload : profileLoaded s := by
    unfold StageInv at hinv; rw [hpre] at hinv; exact hinv
  have hb : (buttons s inp).reflowState = REFLOW_STATE_PREHEAT := by
    rw [(buttons_noStop s inp hno).1, hpre]
  have ht : (sampling (buttons s inp) inp).reflowState = REFLOW_STATE_PREHEAT := by
    rcases sampling_cases (buttons s inp) inp with h | h
    · rw [h.1, hb]
    · exact absurd ⟨by rw [hb]; decide, h.1⟩ hnf
  have hr : (sampling (buttons s inp) inp).thermoReading = reading s inp := by
    rw [sampling_thermoReading, reading_buttons]
  have hper : (sampling (buttons s inp) inp).soakMicroPeriod = s.soakMicroPeriod := by
    rw [sampling_soakMicroPeriod, buttons_soakMicroPeriod]
  have htim : (sampling (buttons s inp) inp).timerSoak = s.timerSoak := by
    rw [sampling_timerSoak, buttons_timerSoak]
  have htun : (sampling (buttons s inp) inp).pidTunings = s.pidTunings := by
    rw [sampling_pidTunings, buttons_pidTunings]
  unfold loop
  rw [stateMachine_preheat _ _ ht, hr, hper]
  refine ⟨?_, ?_⟩
  · intro h
    rw [if_pos h]
    refine ⟨rfl, rfl, rfl, rfl, hload.2.2, ?_⟩
    intro hlt
    show ulAdd (millis inp) s.soakMicroPeriod = millis inp + s.soakMicroPeriod
    unfold ulAdd
    exact Nat.mod_eq_of_lt hlt
  · intro h
    rw [if_neg (not_le.mpr h)]
    exact ⟨ht, htim, htun⟩

/-- Instance of C10: the running lead-free Preheat receives a sample of 150
degrees at 12000 ms; the pass ends in Soak with `timerSoak` at 21000 ms. -/
theorem preheat_to_soak_witness :
    Reachable preheatRunning ∧ ¬ stallFault preheatRunning (quiet 12000 150) ∧
      (loop preheatRunning (quiet 12000 150)).reflowState = REFLOW_STATE_SOAK ∧
      (loop preheatRunning (quiet 12000 150)).setpoint = 155 ∧
      (loop preheatRunning (quiet 12000 150)).timerSoak =
        millis (quiet 12000 150) + preheatRunning.soakMicroPeriod :=
  have h := (preheat_to_soak preheatRunning (quiet 12000 150) reachable_preheatRunning
    (by decide) (by decide) (by decide)).1 (by decide)
  ⟨reachable_preheatRunning, by decide, h.1, h.2.1, h.2.2.2.2.2 (by decide)⟩

/-! # Stage rules, timing, nudges and the stored profile -/

/-! ## More frame lemmas -/

/-- The state machine switch never writes the profile or the EEPROM cell. -/
theorem stateMachine_profile (s : State) (inp : Input) :
    (stateMachine s inp).reflowProfile = s.reflowProfile ∧
      (stateMachine s inp).eeprom = s.eeprom := by
  unfold stateMachine startReflow
  cases s.reflowState <;> dsimp only <;> (try split_ifs) <;> exact ⟨rfl, rfl⟩

theorem sampling_profile (s : State) (inp : Input) :
    (sampling s inp).reflowProfile = s.reflowProfile ∧ (sampling s inp).eeprom = s.eeprom := by
  constructor <;> rw [sampling_frame]

theorem sampling_reflowTemperatureMax (s : State) (inp : Input) :
    (sampling s inp).reflowTemperatureMax = s.reflowTemperatureMax := by
  rw [sampling_frame]

theorem buttons_reflowTemperatureMax (s : State) (inp : Input) :
    (buttons s inp).reflowTemperatureMax = s.reflowTemperatureMax := by
  rw [buttons_frame]

theorem sampling_soakTemperatureMax (s : State) (inp : Input) :
    (sampling s inp).soakTemperatureMax = s.soakTemperatureMax := by
  rw [sampling_frame]

theorem buttons_soakTemperatureMax (s : State) (inp : Input) :
    (buttons s inp).soakTemperatureMax = s.soakTemperatureMax := by
  rw [buttons_frame]

theorem sampling_pins (s : State) (inp : Input) :
    (sampling s inp).buzzerPin = s.buzzerPin ∧ (sampling s inp).windowStartTime = s.windowStartTime := by
  constructor <;> rw [sampling_frame]

/-- Setpoint after the four button tests, in terms of the status the stop test
leaves. -/
theorem buttons_setpoint (s : State) (inp : Input) :
    (buttons s inp).setpoint =
      if (stopButton s inp).reflowStatus = REFLOW_STATUS_OFF then s.setpoint
      else s.setpoint + nudge inp := by
  have h2 : (stopButton s inp).setpoint = s.setpoint := by
    simp only [stopButton]; split_ifs <;> rfl
  have h1 : (profileButton (stopButton s inp) inp).reflowStatus =
      (stopButton s inp).reflowStatus := by
    simp only [profileButton]; split_ifs <;> rfl
  have h3 : (profileButton (stopButton s inp) inp).setpoint = s.setpoint := by
    rw [← h2]; simp only [profileButton]; split_ifs <;> rfl
  by_cases hoff : (stopButton s inp).reflowStatus = REFLOW_STATUS_OFF
  · rw [if_pos hoff]; exact buttons_setpoint_off s inp hoff
  · rw [if_neg hoff]
    have hne : (profileButton (stopButton s inp) inp).reflowStatus ≠ REFLOW_STATUS_OFF := by
      rw [h1]; exact hoff
    simp only [buttons, downButton, upButton, nudge]
    by_cases hu : inp.upBtn = true <;> by_cases hd : inp.downBtn = true <;>
      simp [hu, hd, hne, h3, Int.sub_eq_add_neg]

/-- Profile and EEPROM cell after the four button tests: only the profile test
writes them, and it fires when the stage left by the stop test is Idle. -/
theorem buttons_profile (s : State) (inp : Input) :
    (inp.profileBtn = true ∧ (stopButton s inp).reflowState = REFLOW_STATE_IDLE →
        (buttons s inp).reflowProfile = otherProfile s.reflowProfile ∧
        (buttons s inp).eeprom = profileByte (otherProfile s.reflowProfile)) ∧
      (¬ (inp.profileBtn = true ∧ (stopButton s inp).reflowState = REFLOW_STATE_IDLE) →
        (buttons s inp).reflowProfile = s.reflowProfile ∧
        (buttons s inp).eeprom = s.eeprom) := by
  have hp : (stopButton s inp).reflowProfile = s.reflowProfile ∧
      (stopButton s inp).eeprom = s.eeprom := by
    simp only [stopButton]; split_ifs <;> exact ⟨rfl, rfl⟩
  have hud : (buttons s inp).reflowProfile = (profileButton (stopButton s inp) inp).reflowProfile ∧
      (buttons s inp).eeprom = (profileButton (stopButton s inp) inp).eeprom := by
    simp only [buttons, downButton, upButton]; split_ifs <;> exact ⟨rfl, rfl⟩
  rw [hud.1, hud.2]
  constructor
  · intro h
    simp only [profileButton, h, and_self, if_true]
    cases hq : s.reflowProfile <;> simp [hp.1, hq, otherProfile]
  · intro h
    simp only [profileButton, h, if_false]
    exact hp

/-! ## Two more invariants of the reachable states -/

theorem stopButton_runInv (s : State) (inp : Input) (h : RunInv s) :
    RunInv (stopButton s inp) := by
  simp only [stopButton]
  split_ifs
  · simp only [RunInv]
  · exact h

theorem profileButton_runInv (s : State) (inp : Input) (h : RunInv s) :
    RunInv (profileButton s inp) := by
  simp only [profileButton]
  split_ifs
  · exact h
  · exact h
  · exact h

theorem upButton_runInv (s : State) (inp : Input) (h : RunInv s) :
    RunInv (upButton s inp) := by
  simp only [upButton]
  split_ifs
  · exact h
  · exact h

theorem downButton_runInv (s : State) (inp : Input) (h : RunInv s) :
    RunInv (downButton s inp) := by
  simp only [downButton]
  split_ifs
  · exact h
  · exact h

theorem buttons_runInv (s : State) (inp : Input) (h : RunInv s) : RunInv (buttons s inp) :=
  downButton_runInv _ inp
    (upButton_runInv _ inp (profileButton_runInv _ inp (stopButton_runInv s inp h)))

theorem runaway_runInv (s : State) (now : Nat) (h : RunInv s) : RunInv (runaway s now) := by
  unfold runaway runawayTrip
  unfold RunInv at h
  cases hst : s.reflowState <;> rw [hst] at h <;> dsimp only at h ⊢ <;>
    (try split_ifs) <;> simp only [RunInv, hst] <;> exact h

theorem sampling_runInv (s : State) (inp : Input) (h : RunInv s) :
    RunInv (sampling s inp) := by
  simp only [sampling]
  split_ifs
  · exact runaway_runInv _ _ h
  · exact h
  · exact h

theorem stateMachine_runInv (s : State) (inp : Input) (h : RunInv s) :
    RunInv (stateMachine s inp) := by
  unfold stateMachine startReflow
  unfold RunInv at h
  cases hst : s.reflowState <;> rw [hst] at h <;> dsimp only at h ⊢ <;>
    (try split_ifs) <;> simp only [RunInv, hst] <;> exact h

theorem loop_runInv (s : State) (inp : Input) (h : RunInv s) : RunInv (loop s inp) :=
  stateMachine_runInv _ inp (sampling_runInv _ inp (buttons_runInv s inp h))

theorem reachable_runInv {s : State} (h : Reachable s) : RunInv s := by
  induction h with
  | boot b =>
    unfold RunInv setup
    by_cases hb : b.thermocoupleFault = true <;> simp [hb]
  | pass inp _ ih => exact loop_runInv _ inp ih

theorem loop_eepromInv (s : State) (inp : Input) (h : EepromInv s) : EepromInv (loop s inp) := by
  unfold EepromInv at h ⊢
  unfold loop
  rw [(stateMachine_profile _ inp).1, (stateMachine_profile _ inp).2,
    (sampling_profile _ inp).1, (sampling_profile _ inp).2]
  by_cases hc : inp.profileBtn = true ∧ (stopButton s inp).reflowState = REFLOW_STATE_IDLE
  · rw [((buttons_profile s inp).1 hc).1, ((buttons_profile s inp).1 hc).2]
  · rw [((buttons_profile s inp).2 hc).1, ((buttons_profile s inp).2 hc).2]
    exact h

theorem reachable_eepromInv {s : State} (h : Reachable s) : EepromInv s := by
  induction h with
  | boot b =>
    unfold EepromInv setup
    by_cases h1 : b.eepromByte = 1
    · simp [h1, profileByte]
    · by_cases h0 : b.eepromByte = 0 <;> simp [h0, h1, profileByte]
  | pass inp _ ih => exact loop_eepromInv _ inp ih

/-! ## The remaining cases of the state machine switch -/

theorem stateMachine_soak (t : State) (inp : Input) (h : t.reflowState = REFLOW_STATE_SOAK) :
    stateMachine t inp =
      if millis inp > t.timerSoak then
        if t.setpoint + SOAK_TEMPERATURE_STEP > (t.soakTemperatureMax : Int) then
          { t with timerSoak := ulAdd (millis inp) t.soakMicroPeriod,
                   pidTunings := PID_REFLOW,
                   setpoint := (t.reflowTemperatureMax : Int),
                   reflowState := REFLOW_STATE_REFLOW }
        else
          { t with timerSoak := ulAdd (millis inp) t.soakMicroPeriod,
                   setpoint := t.setpoint + SOAK_TEMPERATURE_STEP }
      else t := by
  simp only [stateMachine, h]

theorem stateMachine_reflow (t : State) (inp : Input)
    (h : t.reflowState = REFLOW_STATE_REFLOW) :
    stateMachine t inp =
      if t.thermoReading ≥ (t.reflowTemperatureMax : Int) - 10 then
        if t.thermoReading ≥ (t.reflowTemperatureMax : Int) then
          { t with pidTunings := PID_REFLOW, setpoint := TEMPERATURE_COOL_MIN,
                   reflowState := REFLOW_STATE_COOL }
        else { t with pidTunings := PID_REFLOW, setpoint := TEMPERATURE_COOL_MIN }
      else if t.thermoReading ≥ (t.reflowTemperatureMax : Int) then
        { t with reflowState := REFLOW_STATE_COOL }
      else t := by
  simp only [stateMachine, h]
  split_ifs <;> rfl

theorem stateMachine_cool (t : State) (inp : Input) (h : t.reflowState = REFLOW_STATE_COOL) :
    stateMachine t inp =
      if t.thermoReading ≤ TEMPERATURE_COOL_MIN then
        { t with buzzerPeriod := ulAdd (millis inp) 1000,
                 buzzerPin := true,
                 fanPin := true,
                 reflowStatus := REFLOW_STATUS_OFF,
                 reflowState := REFLOW_STATE_COMPLETE }
      else t := by
  simp only [stateMachine, h]

/-- A pass without a press at the stop test and without a trip of the runaway
check reaches the state machine switch in the stage and status it started
with. -/
theorem pass_keeps_stage (s : State) (inp : Input) (hno : inp.startBtn1 = false)
    (hnf : ¬ stallFault s inp) (hne : s.reflowState ≠ REFLOW_STATE_ERROR) :
    (sampling (buttons s inp) inp).reflowState = s.reflowState ∧
      (sampling (buttons s inp) inp).reflowStatus = s.reflowStatus := by
  have hb := buttons_noStop s inp hno
  rcases sampling_cases (buttons s inp) inp with h | h
  · rw [h.1, h.2, hb.1, hb.2]; exact ⟨rfl, rfl⟩
  · exact absurd ⟨by rw [hb.1]; exact hne, h.1⟩ hnf

/-- The reading the state machine switch sees. -/
theorem pass_reading (s : State) (inp : Input) :
    (sampling (buttons s inp) inp).thermoReading = reading s inp := by
  rw [sampling_thermoReading, reading_buttons]

theorem nudge_none (inp : Input) (hup : inp.upBtn = false) (hdn : inp.downBtn = false) :
    nudge inp = 0 := by
  simp [nudge, hup, hdn]

/-- Setpoint reaching the state machine switch when neither nudge button is
pressed. -/
theorem pass_setpoint_noNudge (s : State) (inp : Input) (hup : inp.upBtn = false)
    (hdn : inp.downBtn = false) :
    (sampling (buttons s inp) inp).setpoint = s.setpoint := by
  rw [sampling_setpoint, buttons_setpoint, nudge_none inp hup hdn]
  split_ifs
  · rfl
  · exact Int.add_zero _

/-- Stage invariant of a reachable state, carried to the state machine switch. -/
theorem pass_inv (s : State) (inp : Input) (hs : Reachable s) :
    StageInv (sampling (buttons s inp) inp) :=
  sampling_inv _ inp (buttons_inv s inp (reachable_inv hs))

/-- Stage and setpoint left by `case REFLOW_STATE_REFLOW`. -/
theorem reflow_result (t : State) (inp : Input) (h : t.reflowState = REFLOW_STATE_REFLOW) :
    (stateMachine t inp).reflowState =
        (if t.thermoReading ≥ (t.reflowTemperatureMax : Int) then REFLOW_STATE_COOL
          else REFLOW_STATE_REFLOW) ∧
      (stateMachine t inp).setpoint =
        (if t.thermoReading ≥ (t.reflowTemperatureMax : Int) - 10 then TEMPERATURE_COOL_MIN
          else t.setpoint) := by
  rw [stateMachine_reflow _ _ h]
  by_cases h1 : t.thermoReading ≥ (t.reflowTemperatureMax : Int) - 10 <;>
    by_cases h2 : t.thermoReading ≥ (t.reflowTemperatureMax : Int) <;>
    simp only [h1, h2, if_true, if_false, h, and_self]

/-! ## The claims on the stage rules -/

/-- C11: from every reachable state in stage Soak, a pass with no press at the
stop test, no nudge and no trip of the runaway check
* keeps stage and setpoint when the clock is not after `timerSoak`;
* adds exactly `SOAK_TEMPERATURE_STEP` (5) to the setpoint and stays in Soak
  when the clock is after `timerSoak` and the raised setpoint does not exceed
  `soakTemperatureMax`;
* goes to Reflow with setpoint `reflowTemperatureMax` and the Reflow gains when
  the clock is after `timerSoak` and the raised setpoint exceeds
  `soakTemperatureMax`.
Hence a pass that stays in Soak leaves the setpoint unchanged or raises it by
exactly 5.  The profile variables are those of the selected profile. -/
theorem soak_step (s : State) (inp : Input) (hs : Reachable s)
    (hsoak : s.reflowState = REFLOW_STATE_SOAK) (hno : inp.startBtn1 = false)
    (hup : inp.upBtn = false) (hdn : inp.downBtn = false) (hnf : ¬ stallFault s inp) :
    (millis inp ≤ s.timerSoak →
        (loop s inp).reflowState = REFLOW_STATE_SOAK ∧ (loop s inp).setpoint = s.setpoint) ∧
      (millis inp > s.timerSoak →
        s.setpoint + SOAK_TEMPERATURE_STEP ≤ (s.soakTemperatureMax : Int) →
        (loop s inp).reflowState = REFLOW_STATE_SOAK ∧
          (loop s inp).setpoint = s.setpoint + 5) ∧
      (millis inp > s.timerSoak →
        s.setpoint + SOAK_TEMPERATURE_STEP > (s.soakTemperatureMax : Int) →
        (loop s inp).reflowState = REFLOW_STATE_REFLOW ∧
          (loop s inp).setpoint = (s.reflowTemperatureMax : Int) ∧
          (loop s inp).pidTunings = ⟨300, 0.05, 350⟩) ∧
      ((loop s inp).reflowState = REFLOW_STATE_SOAK →
        (loop s inp).setpoint = s.setpoint ∨ (loop s inp).setpoint = s.setpoint + 5) ∧
      profileLoaded s := by
  have hinv := reachable_inv hs
  have hload : profileLoaded s := by
    unfold StageInv at hinv; rw [hsoak] at hinv; exact hinv
  have ht := (pass_keeps_stage s inp hno hnf (by rw [hsoak]; decide)).1
  rw [hsoak] at ht
  have hsp := pass_setpoint_noNudge s inp hup hdn
  have htim : (sampling (buttons s inp) inp).timerSoak = s.timerSoak := by
    rw [sampling_timerSoak, buttons_timerSoak]
  have hmax : (sampling (buttons s inp) inp).soakTemperatureMax = s.soakTemperatureMax := by
    rw [sampling_soakTemperatureMax, buttons_soakTemperatureMax]
  have hrmax : (sampling (buttons s inp) inp).reflowTemperatureMax = s.reflowTemperatureMax := by
    rw [sampling_reflowTemperatureMax, buttons_reflowTemperatureMax]
  unfold loop
  rw [stateMachine_soak _ _ ht, htim, hsp, hmax, hrmax]
  refine ⟨?_, ?_, ?_, ?_, hload⟩
  · intro h
    rw [if_neg (not_lt.mpr h)]
    exact ⟨ht, hsp⟩
  · intro h h2
    rw [if_pos h, if_neg (not_lt.mpr h2)]
    exact ⟨ht, rfl⟩
  · intro h h2
    rw [if_pos h, if_pos h2]
    exact ⟨rfl, rfl, rfl⟩
  · intro h
    by_cases h1 : millis inp > s.timerSoak
    · rw [if_pos h1] at h ⊢
      by_cases h2 : s.setpoint + SOAK_TEMPERATURE_STEP > (s.soakTemperatureMax : Int)
      · rw [if_pos h2] at h
        exact absurd h (by decide : REFLOW_STATE_REFLOW ≠ REFLOW_STATE_SOAK)
      · rw [if_neg h2]
        right; rfl
    · rw [if_neg h1]
      left; exact hsp

/-- Instance of C11: the lead-free run in Soak at setpoint 155, a pass just
after `timerSoak` (20000 ms): the setpoint becomes 160, the stage stays Soak. -/
theorem soak_step_witness :
    Reachable soakRunning ∧ soakRunning.setpoint = 155 ∧
      (loop soakRunning (quiet 20001 160)).reflowState = REFLOW_STATE_SOAK ∧
      (loop soakRunning (quiet 20001 160)).setpoint = 155 + 5 :=
  have h := (soak_step soakRunning (quiet 20001 160)
    (reachable_run (Reachable.boot bootLF) _) (by decide) (by decide) (by decide) (by decide)
    (by decide)).2.1 (by decide) (by decide)
  ⟨reachable_run (Reachable.boot bootLF) _, by decide, h.1, h.2⟩

/-- C12: from every reachable state in stage Reflow, a pass with no press at
the stop test and no trip of the runaway check ends in Cool if and only if the
reading is at least `reflowTemperatureMax`, which is the constant of the
selected profile (250 lead-free, 224 leaded); with a lower reading the stage
stays Reflow. -/
theorem reflow_to_cool (s : State) (inp : Input) (hs : Reachable s)
    (hre : s.reflowState = REFLOW_STATE_REFLOW) (hno : inp.startBtn1 = false)
    (hnf : ¬ stallFault s inp) :
    ((loop s inp).reflowState = REFLOW_STATE_COOL ↔
        reading s inp ≥ (reflowTemperatureMaxOf s.reflowProfile : Int)) ∧
      (reading s inp < (reflowTemperatureMaxOf s.reflowProfile : Int) →
        (loop s inp).reflowState = REFLOW_STATE_REFLOW) ∧
      s.reflowTemperatureMax = reflowTemperatureMaxOf s.reflowProfile ∧
      reflowTemperatureMaxOf REFLOW_PROFILE_LEADFREE = 250 ∧
      reflowTemperatureMaxOf REFLOW_PROFILE_LEADED = 224 := by
  have hinv := reachable_inv hs
  have hload : profileLoaded s := by
    unfold StageInv at hinv; rw [hre] at hinv; exact hinv
  have ht := (pass_keeps_stage s inp hno hnf (by rw [hre]; decide)).1
  rw [hre] at ht
  have hr := pass_reading s inp
  have hrmax : (sampling (buttons s inp) inp).reflowTemperatureMax = s.reflowTemperatureMax := by
    rw [sampling_reflowTemperatureMax, buttons_reflowTemperatureMax]
  have hres := reflow_result _ inp ht
  rw [hr, hrmax] at hres
  unfold loop
  rw [hres.1, ← hload.2.1]
  refine ⟨?_, ?_, rfl, rfl, rfl⟩
  · constructor
    · intro h
      by_contra hlt
      rw [if_neg hlt] at h
      exact absurd h (by decide)
    · intro h
      rw [if_pos h]
  · intro h
    rw [if_neg (not_le.mpr h)]

/-- Instance of C12: the lead-free cycle in Reflow receives a sample of 249
degrees and stays in Reflow. -/
theorem reflow_to_cool_witness :
    Reachable cycleReflow ∧ cycleReflow.reflowState = REFLOW_STATE_REFLOW ∧
      (loop cycleReflow (quiet 102010 249)).reflowState = REFLOW_STATE_REFLOW :=
  ⟨reachable_run (Reachable.boot bootLF) _, by decide,
    (reflow_to_cool cycleReflow (quiet 102010 249) (reachable_run (Reachable.boot bootLF) _)
      (by decide) (by decide) (by decide)).2.1 (by decide)⟩

/-- With a peak above `TEMPERATURE_COOL_MIN`, running the state machine switch a
second time on the result of `case REFLOW_STATE_REFLOW` changes nothing. -/
theorem stateMachine_reflow_idem (t : State) (inp : Input)
    (h : t.reflowState = REFLOW_STATE_REFLOW)
    (hmax : TEMPERATURE_COOL_MIN < (t.reflowTemperatureMax : Int)) :
    stateMachine (stateMachine t inp) inp = stateMachine t inp := by
  rw [stateMachine_reflow t inp h]
  by_cases h1 : t.thermoReading ≥ (t.reflowTemperatureMax : Int) - 10
  · by_cases h2 : t.thermoReading ≥ (t.reflowTemperatureMax : Int)
    · rw [if_pos h1, if_pos h2, stateMachine_cool _ _ rfl]
      have h3 : ¬ t.thermoReading ≤ TEMPERATURE_COOL_MIN := by omega
      exact if_neg h3
    · rw [if_pos h1, if_neg h2]
      have e := stateMachine_reflow
        { t with pidTunings := PID_REFLOW, setpoint := TEMPERATURE_COOL_MIN } inp h
      rw [e]
      simp only [h1, h2, if_true, if_false]
  · by_cases h2 : t.thermoReading ≥ (t.reflowTemperatureMax : Int)
    · exact absurd h2 (by omega)
    · rw [if_neg h1, if_neg h2, stateMachine_reflow _ _ h, if_neg h1, if_neg h2]

/-- The peak temperature loaded for either profile is above
`TEMPERATURE_COOL_MIN`. -/
theorem profileLoaded_peak (t : State) (h : profileLoaded t) :
    TEMPERATURE_COOL_MIN < (t.reflowTemperatureMax : Int) := by
  rw [h.2.1]
  cases t.reflowProfile <;> decide

/-- C13: from every reachable state in stage Reflow, a pass with no press at
the stop test and no trip of the runaway check
* sets the setpoint to `TEMPERATURE_COOL_MIN` (100) when the reading is at
  least `reflowTemperatureMax - 10`;
* leaves the setpoint unchanged when the reading is lower and no nudge button
  is pressed;
and running the state machine switch once more with the same reading and clock
on the state the pass produced gives that same state. -/
theorem reflow_drop_idempotent (s : State) (inp : Input) (hs : Reachable s)
    (hre : s.reflowState = REFLOW_STATE_REFLOW) (hno : inp.startBtn1 = false)
    (hnf : ¬ stallFault s inp) :
    (reading s inp ≥ (s.reflowTemperatureMax : Int) - 10 →
        (loop s inp).setpoint = TEMPERATURE_COOL_MIN) ∧
      (reading s inp < (s.reflowTemperatureMax : Int) - 10 →
        inp.upBtn = false → inp.downBtn = false → (loop s inp).setpoint = s.setpoint) ∧
      stateMachine (loop s inp) inp = loop s inp := by
  have ht := (pass_keeps_stage s inp hno hnf (by rw [hre]; decide)).1
  rw [hre] at ht
  have hr := pass_reading s inp
  have hrmax : (sampling (buttons s inp) inp).reflowTemperatureMax = s.reflowTemperatureMax := by
    rw [sampling_reflowTemperatureMax, buttons_reflowTemperatureMax]
  have hres := (reflow_result _ inp ht).2
  rw [hr, hrmax] at hres
  have hti := pass_inv s inp hs
  have hload : profileLoaded (sampling (buttons s inp) inp) := by
    unfold StageInv at hti; rw [ht] at hti; exact hti
  refine ⟨?_, ?_, ?_⟩
  · intro h
    unfold loop
    rw [hres, if_pos h]
  · intro h hup hdn
    unfold loop
    rw [hres, if_neg (not_le.mpr h)]
    exact pass_setpoint_noNudge s inp hup hdn
  · unfold loop
    exact stateMachine_reflow_idem _ inp ht (profileLoaded_peak _ hload)

/-- Instance of C13: the lead-free cycle in Reflow receives a sample of 245
degrees; the setpoint drops to 100. -/
theorem reflow_drop_idempotent_witness :
    Reachable cycleReflow ∧ cycleReflow.reflowState = REFLOW_STATE_REFLOW ∧
      (loop cycleReflow (quiet 102010 245)).setpoint = 100 ∧
      stateMachine (loop cycleReflow (quiet 102010 245)) (quiet 102010 245) =
        loop cycleReflow (quiet 102010 245) :=
  have h := reflow_drop_idempotent cycleReflow (quiet 102010 245)
    (reachable_run (Reachable.boot bootLF) _) (by decide) (by decide) (by decide)
  ⟨reachable_run (Reachable.boot bootLF) _, by decide, h.1 (by decide), h.2.2⟩

/-- C14: from every reachable state in stage Cool, a pass with no press at the
stop test and no trip of the runaway check ends in Complete if and only if the
reading is at most `TEMPERATURE_COOL_MIN` (100).  When it does, the process is
off, the buzzer pin and the fan pin are HIGH and `buzzerPeriod` is the clock
plus 1000 ms (in `unsigned long` arithmetic, the plain sum when it does not
overflow); with a higher reading the stage stays Cool and the process stays
on. -/
theorem cool_to_complete (s : State) (inp : Input) (hs : Reachable s)
    (hcool : s.reflowState = REFLOW_STATE_COOL) (hno : inp.startBtn1 = false)
    (hnf : ¬ stallFault s inp) :
    ((loop s inp).reflowState = REFLOW_STATE_COMPLETE ↔
        reading s inp ≤ TEMPERATURE_COOL_MIN) ∧
      (reading s inp ≤ TEMPERATURE_COOL_MIN →
        (loop s inp).reflowStatus = REFLOW_STATUS_OFF ∧
        (loop s inp).buzzerPin = true ∧
        (loop s inp).fanPin = true ∧
        (loop s inp).buzzerPeriod = ulAdd (millis inp) 1000 ∧
        (millis inp + 1000 < ULONG_RANGE → (loop s inp).buzzerPeriod = millis inp + 1000)) ∧
      (reading s inp > TEMPERATURE_COOL_MIN →
        (loop s inp).reflowState = REFLOW_STATE_COOL ∧
        (loop s inp).reflowStatus = REFLOW_STATUS_ON) := by
  have hrun := reachable_runInv hs
  have hon : s.reflowStatus = REFLOW_STATUS_ON := by
    unfold RunInv at hrun; rw [hcool] at hrun; exact hrun
  have ht := pass_keeps_stage s inp hno hnf (by rw [hcool]; decide)
  rw [hcool, hon] at ht
  have hr := pass_reading s inp
  unfold loop
  rw [stateMachine_cool _ _ ht.1, hr]
  refine ⟨?_, ?_, ?_⟩
  · constructor
    · intro h
      by_contra hgt
      rw [if_neg hgt, ht.1] at h
      exact absurd h (by decide)
    · intro h
      rw [if_pos h]
  · intro h
    rw [if_pos h]
    refine ⟨rfl, rfl, rfl, rfl, ?_⟩
    intro hlt
    show ulAdd (millis inp) 1000 = millis inp + 1000
    unfold ulAdd
    exact Nat.mod_eq_of_lt hlt
  · intro h
    rw [if_neg (not_le.mpr h)]
    exact ht

/-- Instance of C14: the last pass of the lead-free cycle, from Cool at 100
degrees. -/
theorem cool_to_complete_witness :
    Reachable cycleCool ∧ cycleCool.reflowState = REFLOW_STATE_COOL ∧
      (loop cycleCool (quiet 103010 100)).reflowState = REFLOW_STATE_COMPLETE ∧
      (loop cycleCool (quiet 103010 100)).reflowStatus = REFLOW_STATUS_OFF ∧
      (loop cycleCool (quiet 103010 100)).buzzerPeriod = millis (quiet 103010 100) + 1000 :=
  have h := cool_to_complete cycleCool (quiet 103010 100)
    (reachable_run (Reachable.boot bootLF) _) (by decide) (by decide) (by decide)
  ⟨reachable_run (Reachable.boot bootLF) _, by decide, h.1.2 (by decide),
    (h.2.1 (by decide)).1, (h.2.1 (by decide)).2.2.2.2 (by decide)⟩

/-! ## Complete, the window anchor and the gains -/

/-- The stop test leaves the stage it found or Idle. -/
theorem stopButton_stage (s : State) (inp : Input) :
    (stopButton s inp).reflowState = s.reflowState ∨
      (stopButton s inp).reflowState = REFLOW_STATE_IDLE := by
  simp only [stopButton]
  split_ifs
  · right; rfl
  · left; rfl

/-- The stage that reaches the state machine switch is the one the pass started
in, or Idle after an accepted stop, or Error after a trip. -/
theorem pass_stage (s : State) (inp : Input) :
    (sampling (buttons s inp) inp).reflowState = s.reflowState ∨
      (sampling (buttons s inp) inp).reflowState = REFLOW_STATE_IDLE ∨
      (sampling (buttons s inp) inp).reflowState = REFLOW_STATE_ERROR := by
  rcases sampling_cases (buttons s inp) inp with h | h
  · rw [h.1, buttons_reflowState]
    rcases stopButton_stage s inp with h2 | h2
    · left; exact h2
    · right; left; exact h2
  · right; right; exact h.1

/-- The Idle case never ends in Complete. -/
theorem stateMachine_idle_stage (t : State) (inp : Input)
    (h : t.reflowState = REFLOW_STATE_IDLE) :
    (stateMachine t inp).reflowState ≠ REFLOW_STATE_COMPLETE := by
  rw [stateMachine_idle _ _ h]
  unfold startReflow
  dsimp only
  split_ifs <;> simp [h]

/-- A pass that starts in Cool and ends in Complete has executed the Cool case:
`buzzerPeriod` is the clock plus 1000 ms. -/
theorem enter_complete (s : State) (inp : Input) (hcool : s.reflowState = REFLOW_STATE_COOL)
    (hent : (loop s inp).reflowState = REFLOW_STATE_COMPLETE) :
    (loop s inp).buzzerPeriod = ulAdd (millis inp) 1000 := by
  unfold loop at hent ⊢
  rcases pass_stage s inp with h | h | h
  · rw [hcool] at h
    rw [stateMachine_cool _ _ h] at hent ⊢
    by_cases hc : (sampling (buttons s inp) inp).thermoReading ≤ TEMPERATURE_COOL_MIN
    · rw [if_pos hc]
    · rw [if_neg hc, h] at hent
      exact absurd hent (by decide)
  · exact absurd hent (stateMachine_idle_stage _ inp h)
  · rw [stateMachine_error _ _ h] at hent
    have h2 : (sampling (buttons s inp) inp).reflowState = REFLOW_STATE_COMPLETE := hent
    rw [h] at h2
    exact absurd h2 (by decide)

/-- The rule of stage Complete over a whole pass, from a state that satisfies the
stage invariant: whatever the buttons and the sensor, the pass ends in TooHot
when the clock is after `buzzerPeriod`, and otherwise stays in Complete with
`buzzerPeriod` unchanged. -/
theorem complete_pass (s : State) (inp : Input) (hinv : StageInv s)
    (hc : s.reflowState = REFLOW_STATE_COMPLETE) :
    (millis inp > s.buzzerPeriod → (loop s inp).reflowState = REFLOW_STATE_TOO_HOT) ∧
      (¬ millis inp > s.buzzerPeriod →
        (loop s inp).reflowState = REFLOW_STATE_COMPLETE ∧
          (loop s inp).buzzerPeriod = s.buzzerPeriod) := by
  have hoff : s.reflowStatus = REFLOW_STATUS_OFF := by
    unfold StageInv at hinv; rw [hc] at hinv; exact hinv
  have hb := buttons_off s inp hoff (by rw [hc]; decide)
  have ht := sampling_off (buttons s inp) inp hb.2.1
  rw [hb.1, hc] at ht
  have hbz : (sampling (buttons s inp) inp).buzzerPeriod = s.buzzerPeriod := by
    rw [sampling_buzzerPeriod, buttons_buzzerPeriod]
  unfold loop
  rw [stateMachine_complete _ _ ht.1, hbz]
  constructor
  · intro h; rw [if_pos h]
  · intro h; rw [if_neg h]; exact ⟨ht.1, hbz⟩

/-- Passes whose clock is not after `buzzerPeriod` keep a Complete state in
Complete, with the same `buzzerPeriod`. -/
theorem complete_waits (l : List Input) (s : State) (hinv : StageInv s)
    (hc : s.reflowState = REFLOW_STATE_COMPLETE)
    (hl : ∀ i ∈ l, ¬ millis i > s.buzzerPeriod) :
    StageInv (run s l) ∧ (run s l).reflowState = REFLOW_STATE_COMPLETE ∧
      (run s l).buzzerPeriod = s.buzzerPeriod := by
  induction l generalizing s with
  | nil => exact ⟨hinv, hc, rfl⟩
  | cons inp rest ih =>
    have h1 := (complete_pass s inp hinv hc).2 (hl inp (List.mem_cons_self _ _))
    have h2 := ih (loop s inp) (loop_inv s inp hinv) h1.1
      (fun i hi => by rw [h1.2]; exact hl i (List.mem_cons_of_mem _ hi))
    exact ⟨h2.1, h2.2.1, h2.2.2.trans h1.2⟩

/-- C15 as stated fails: the lead-free cycle enters Complete at 103010 ms; in
the pass at 104010 ms, exactly 1000 ms later, the stage is still Complete. -/
theorem complete_at_1000_stays :
    Reachable cycleCool ∧
      cycleCool.reflowState = REFLOW_STATE_COOL ∧
      (loop cycleCool (quiet 103010 100)).reflowState = REFLOW_STATE_COMPLETE ∧
      millis (quiet 104010 100) - millis (quiet 103010 100) = 1000 ∧
      (loop (loop cycleCool (quiet 103010 100)) (quiet 104010 100)).reflowState =
        REFLOW_STATE_COMPLETE ∧
      (loop (loop cycleCool (quiet 103010 100)) (quiet 104010 100)).reflowState ≠
        REFLOW_STATE_TOO_HOT :=
  ⟨reachable_run (Reachable.boot bootLF) _, by decide, by decide, by decide, by decide,
    by decide⟩

/-- C15 amended: let a pass at clock `t` take a reachable state from Cool to
Complete, and let any number of passes follow whose clock is not after
`t + 1000` (sum in `unsigned long` arithmetic, the plain sum when it does not
overflow): the stage is still Complete.  The next pass, whatever its reading
and buttons, ends in TooHot when its clock is strictly after `t + 1000` and in
Complete when it is not. -/
theorem complete_delay (s : State) (first : Input) (l : List Input) (inp : Input)
    (hs : Reachable s) (hcool : s.reflowState = REFLOW_STATE_COOL)
    (hent : (loop s first).reflowState = REFLOW_STATE_COMPLETE)
    (hl : ∀ i ∈ l, ¬ millis i > ulAdd (millis first) 1000) :
    (run (loop s first) l).reflowState = REFLOW_STATE_COMPLETE ∧
      (millis inp > ulAdd (millis first) 1000 →
        (loop (run (loop s first) l) inp).reflowState = REFLOW_STATE_TOO_HOT) ∧
      (¬ millis inp > ulAdd (millis first) 1000 →
        (loop (run (loop s first) l) inp).reflowState = REFLOW_STATE_COMPLETE) ∧
      (millis first + 1000 < ULONG_RANGE → ulAdd (millis first) 1000 = millis first + 1000) := by
  have hbp := enter_complete s first hcool hent
  have hinv := loop_inv s first (reachable_inv hs)
  have hw := complete_waits l (loop s first) hinv hent (by rw [hbp]; exact hl)
  have hp := complete_pass (run (loop s first) l) inp hw.1 hw.2.1
  rw [hw.2.2, hbp] at hp
  refine ⟨hw.2.1, hp.1, fun h => (hp.2 h).1, ?_⟩
  intro hlt
  unfold ulAdd
  exact Nat.mod_eq_of_lt hlt

/-- Instance of C15 amended: the lead-free cycle enters Complete at 103010 ms,
a pass at 103500 ms waits, the pass at 104011 ms ends in TooHot. -/
theorem complete_delay_witness :
    Reachable cycleCool ∧
      (loop cycleCool (quiet 103010 100)).reflowState = REFLOW_STATE_COMPLETE ∧
      (run (loop cycleCool (quiet 103010 100)) [quiet 103500 100]).reflowState =
        REFLOW_STATE_COMPLETE ∧
      (loop (run (loop cycleCool (quiet 103010 100)) [quiet 103500 100])
        (quiet 104011 100)).reflowState = REFLOW_STATE_TOO_HOT :=
  have h := complete_delay cycleCool (quiet 103010 100) [quiet 103500 100] (quiet 104011 100)
    (reachable_run (Reachable.boot bootLF) _) (by decide) (by decide) (by decide)
  ⟨reachable_run (Reachable.boot bootLF) _, by decide, h.1, h.2.1 (by decide)⟩

/-- C16, evaluated on the code: the lead-free run started at 10000 ms is in
Preheat with the process on at the end of the pass at 13000 ms; the window
anchor is still the start time, 3000 ms back, with a window of 2000 ms. -/
theorem window_anchor_not_advanced :
    Reachable preheatRunning ∧
      (loop preheatRunning (quiet 13000 42)).reflowState = REFLOW_STATE_PREHEAT ∧
      (loop preheatRunning (quiet 13000 42)).reflowStatus = REFLOW_STATUS_ON ∧
      (loop preheatRunning (quiet 13000 42)).windowSize = 2000 ∧
      (loop preheatRunning (quiet 13000 42)).windowStartTime = 10000 ∧
      ulSub (millis (quiet 13000 42)) (loop preheatRunning (quiet 13000 42)).windowStartTime =
        3000 ∧
      (pidAndSsrControl (loop preheatRunning (quiet 13000 42))
        (quiet 13000 42)).windowStartTime = 12000 :=
  ⟨reachable_preheatRunning, by decide, by decide, by decide, by decide, by decide, by decide⟩

/-- C17, evaluated on the code: after a complete lead-free cycle the unit is
back in Idle below `TEMPERATURE_ROOM` with the Reflow gains; the pass that
processes the second start ends in Preheat with the Reflow gains
(300, 0.05, 350), not the Preheat gains. -/
theorem second_start_keeps_reflow_gains :
    Reachable idleAgain ∧
      idleAgain.reflowState = REFLOW_STATE_IDLE ∧
      reading idleAgain (startPress 106011 40) < TEMPERATURE_ROOM ∧
      (startPress 106011 40).startBtn2 = true ∧
      secondStart.reflowState = REFLOW_STATE_PREHEAT ∧
      secondStart.pidTunings = ⟨300, 0.05, 350⟩ ∧
      secondStart.pidTunings ≠ PID_PREHEAT :=
  ⟨reachable_run reachable_cycleComplete _, by decide, by decide, by decide, by decide, rfl,
    fun h => by
      have h2 : (300 : ℚ) = 100 := congrArg Tunings.kp h
      norm_num at h2⟩

/-! ## Profile selection, nudges and the stored profile -/

/-- The profile and the EEPROM cell at the end of a pass are those the button
tests leave. -/
theorem loop_profile (s : State) (inp : Input) :
    (loop s inp).reflowProfile = (buttons s inp).reflowProfile ∧
      (loop s inp).eeprom = (buttons s inp).eeprom := by
  unfold loop
  rw [(stateMachine_profile _ inp).1, (stateMachine_profile _ inp).2,
    (sampling_profile _ inp).1, (sampling_profile _ inp).2]
  exact ⟨rfl, rfl⟩

/-- Stage left by the stop test. -/
theorem stopButton_fires (s : State) (inp : Input) :
    (inp.startBtn1 = true ∧
        (s.reflowStatus = REFLOW_STATUS_ON ∨ s.reflowState = REFLOW_STATE_ERROR) →
        (stopButton s inp).reflowState = REFLOW_STATE_IDLE ∧
          (stopButton s inp).reflowStatus = REFLOW_STATUS_OFF) ∧
      (¬ (inp.startBtn1 = true ∧
          (s.reflowStatus = REFLOW_STATUS_ON ∨ s.reflowState = REFLOW_STATE_ERROR)) →
        stopButton s inp = s) := by
  constructor
  · intro h
    simp only [stopButton, h, and_self, if_true]
  · intro h
    simp only [stopButton, h, if_false]

/-- The cases Idle (without a start press), Complete, TooHot and Error do not
assign `setpoint`. -/
theorem stateMachine_setpoint_off (t : State) (inp : Input) (hns : inp.startBtn2 = false)
    (hst : t.reflowState = REFLOW_STATE_IDLE ∨ t.reflowState = REFLOW_STATE_COMPLETE ∨
      t.reflowState = REFLOW_STATE_TOO_HOT ∨ t.reflowState = REFLOW_STATE_ERROR) :
    (stateMachine t inp).setpoint = t.setpoint := by
  rcases hst with h | h | h | h
  · rw [stateMachine_idle _ _ h]
    by_cases hr : t.thermoReading ≥ TEMPERATURE_ROOM
    · rw [if_pos hr]
    · rw [if_neg hr, if_neg (by rw [hns]; decide)]
  · rw [stateMachine_complete _ _ h]
    split_ifs <;> rfl
  · rw [stateMachine_tooHot _ _ h]
    split_ifs <;> rfl
  · rw [stateMachine_error _ _ h]

/-- The stage case does not assign `setpoint` when `setpointHeld` says so, nor
after a trip of the runaway check. -/
theorem stateMachine_setpoint_held (s : State) (inp : Input) (hno : inp.startBtn1 = false)
    (hheld : setpointHeld s inp) :
    (loop s inp).setpoint = (buttons s inp).setpoint := by
  have hb := buttons_noStop s inp hno
  have hr := pass_reading s inp
  have hsp : (sampling (buttons s inp) inp).setpoint = (buttons s inp).setpoint :=
    sampling_setpoint _ _
  unfold loop
  rcases sampling_cases (buttons s inp) inp with h | h
  · have ht : (sampling (buttons s inp) inp).reflowState = s.reflowState := by
      rw [h.1, hb.1]
    unfold setpointHeld at hheld
    cases hst : s.reflowState <;> rw [hst] at hheld ht <;> dsimp only at hheld
    case REFLOW_STATE_PREHEAT =>
      rw [stateMachine_preheat _ _ ht, hr, if_neg (not_le.mpr hheld)]
      exact hsp
    case REFLOW_STATE_SOAK =>
      have htim : (sampling (buttons s inp) inp).timerSoak = s.timerSoak := by
        rw [sampling_timerSoak, buttons_timerSoak]
      rw [stateMachine_soak _ _ ht, htim, if_neg hheld]
      exact hsp
    case REFLOW_STATE_REFLOW =>
      have hrmax : (sampling (buttons s inp) inp).reflowTemperatureMax =
          s.reflowTemperatureMax := by
        rw [sampling_reflowTemperatureMax, buttons_reflowTemperatureMax]
      rw [(reflow_result _ inp ht).2, hr, hrmax, if_neg (not_le.mpr hheld)]
      exact hsp
    case REFLOW_STATE_COOL =>
      rw [stateMachine_cool _ _ ht]
      split_ifs <;> exact hsp
  · rw [stateMachine_error _ _ h.1]
    exact hsp

/-- C18 as stated fails: the running Preheat (lead-free selected) receives a
pass in which the stop test and the profile button both see a press; the pass
started outside Idle and ends with the leaded profile selected. -/
theorem stop_and_toggle_changes_profile :
    Reachable preheatRunning ∧
      preheatRunning.reflowState = REFLOW_STATE_PREHEAT ∧
      preheatRunning.reflowProfile = REFLOW_PROFILE_LEADFREE ∧
      (loop preheatRunning (stopProfilePress 12000 41)).reflowProfile =
        REFLOW_PROFILE_LEADED ∧
      (loop preheatRunning (stopProfilePress 12000 41)).reflowProfile ≠
        preheatRunning.reflowProfile :=
  ⟨reachable_preheatRunning, by decide, by decide, by decide, by decide⟩

/-- C18 amended: for a pass that starts in a stage other than Idle, the selected
profile is unchanged unless the stop test fires (a press while the process is
on or the stage is Error) and the profile button is pressed in the same pass;
in that case the stop puts the stage to Idle before the profile test and the
profile is toggled. -/
theorem profile_changes_only_in_idle (s : State) (inp : Input)
    (hne : s.reflowState ≠ REFLOW_STATE_IDLE) :
    (¬ (inp.startBtn1 = true ∧
          (s.reflowStatus = REFLOW_STATUS_ON ∨ s.reflowState = REFLOW_STATE_ERROR)) →
        (loop s inp).reflowProfile = s.reflowProfile) ∧
      (inp.profileBtn = false → (loop s inp).reflowProfile = s.reflowProfile) ∧
      ((inp.startBtn1 = true ∧
          (s.reflowStatus = REFLOW_STATUS_ON ∨ s.reflowState = REFLOW_STATE_ERROR)) →
        inp.profileBtn = true → (loop s inp).reflowProfile = otherProfile s.reflowProfile) := by
  rw [(loop_profile s inp).1]
  refine ⟨?_, ?_, ?_⟩
  · intro h
    have hst := (stopButton_fires s inp).2 h
    refine ((buttons_profile s inp).2 ?_).1
    rw [hst]
    exact fun hc => hne hc.2
  · intro hp
    refine ((buttons_profile s inp).2 ?_).1
    rw [hp]
    exact fun hc => absurd hc.1 (by decide)
  · intro h hp
    exact ((buttons_profile s inp).1 ⟨hp, ((stopButton_fires s inp).1 h).1⟩).1

/-- Instance of C18 amended: the running Preheat, profile button pressed without
stop. -/
theorem profile_changes_only_in_idle_witness :
    preheatRunning.reflowState ≠ REFLOW_STATE_IDLE ∧
      (loop preheatRunning (profilePress 12000 41)).reflowProfile =
        preheatRunning.reflowProfile :=
  ⟨by decide,
    (profile_changes_only_in_idle preheatRunning (profilePress 12000 41) (by decide)).1
      (by decide)⟩

/-- C19 as stated fails: the lead-free run in Soak with the process on receives
a pass with only the up button pressed, just after `timerSoak`; the pass stays
in Soak (no stage boundary is crossed) and the setpoint goes from 155 to 161,
not 156. -/
theorem nudge_with_soak_step_adds_six :
    Reachable soakRunning ∧
      soakRunning.reflowState = REFLOW_STATE_SOAK ∧
      soakRunning.reflowStatus = REFLOW_STATUS_ON ∧
      soakRunning.setpoint = 155 ∧
      (upPress 20001 160).upBtn = true ∧ (upPress 20001 160).downBtn = false ∧
      (upPress 20001 160).startBtn1 = false ∧
      (loop soakRunning (upPress 20001 160)).reflowState = REFLOW_STATE_SOAK ∧
      (loop soakRunning (upPress 20001 160)).setpoint = 161 ∧
      (loop soakRunning (upPress 20001 160)).setpoint ≠ soakRunning.setpoint + 1 :=
  ⟨reachable_run (Reachable.boot bootLF) _, by decide, by decide, by decide, by decide,
    by decide, by decide, by decide, by decide, by decide⟩

/-- C19 amended: from every state,
* a pass that starts with the process off in Idle, Complete, TooHot or Error
  and sees no press at the start test leaves the setpoint unchanged, for every
  combination of the up and down buttons;
* a pass that starts with the process on, sees no press at the stop test and
  whose stage case does not itself assign the setpoint (`setpointHeld`: Preheat
  below `TEMPERATURE_SOAK_MIN`, Soak not after `timerSoak`, Reflow below
  `reflowTemperatureMax - 10`, Cool) ends with the setpoint raised by exactly 1
  for up alone, lowered by exactly 1 for down alone, and in general changed by
  `nudge`. -/
theorem nudge_only_while_running (s : State) (inp : Input) :
    (s.reflowStatus = REFLOW_STATUS_OFF →
        (s.reflowState = REFLOW_STATE_IDLE ∨ s.reflowState = REFLOW_STATE_COMPLETE ∨
          s.reflowState = REFLOW_STATE_TOO_HOT ∨ s.reflowState = REFLOW_STATE_ERROR) →
        inp.startBtn2 = false → (loop s inp).setpoint = s.setpoint) ∧
      (s.reflowStatus = REFLOW_STATUS_ON → inp.startBtn1 = false → setpointHeld s inp →
        (loop s inp).setpoint = s.setpoint + nudge inp ∧
        (inp.upBtn = true → inp.downBtn = false → (loop s inp).setpoint = s.setpoint + 1) ∧
        (inp.upBtn = false → inp.downBtn = true → (loop s inp).setpoint = s.setpoint - 1)) := by
  constructor
  · intro hoff hst hns
    have hstop : (stopButton s inp).reflowStatus = REFLOW_STATUS_OFF := by
      simp only [stopButton]
      split_ifs
      · rfl
      · exact hoff
    have hbs := buttons_setpoint_off s inp hstop
    have hbst : (buttons s inp).reflowStatus = REFLOW_STATUS_OFF := by
      rw [buttons_reflowStatus]; exact hstop
    have ht := sampling_off (buttons s inp) inp hbst
    have hstage : (sampling (buttons s inp) inp).reflowState = REFLOW_STATE_IDLE ∨
        (sampling (buttons s inp) inp).reflowState = REFLOW_STATE_COMPLETE ∨
        (sampling (buttons s inp) inp).reflowState = REFLOW_STATE_TOO_HOT ∨
        (sampling (buttons s inp) inp).reflowState = REFLOW_STATE_ERROR := by
      rw [ht.1, buttons_reflowState]
      rcases stopButton_stage s inp with h | h
      · rw [h]; exact hst
      · left; exact h
    unfold loop
    rw [stateMachine_setpoint_off _ inp hns hstage, sampling_setpoint, hbs]
  · intro hon hno hheld
    have hst : stopButton s inp = s := by
      refine (stopButton_fires s inp).2 ?_
      rw [hno]
      exact fun hc => absurd hc.1 (by decide)
    have hbs : (buttons s inp).setpoint = s.setpoint + nudge inp := by
      rw [buttons_setpoint, hst, hon]
      exact if_neg (by decide)
    have hfin : (loop s inp).setpoint = s.setpoint + nudge inp := by
      rw [stateMachine_setpoint_held s inp hno hheld, hbs]
    refine ⟨hfin, ?_, ?_⟩
    · intro hu hd
      rw [hfin]
      simp [nudge, hu, hd]
    · intro hu hd
      rw [hfin]
      simp [nudge, hu, hd, Int.sub_eq_add_neg]

/-- Instance of C19 amended: the lead-free run in Soak, up pressed before
`timerSoak`: the setpoint goes from 155 to 156. -/
theorem nudge_only_while_running_witness :
    Reachable soakRunning ∧ soakRunning.setpoint = 155 ∧
      (loop soakRunning (upPress 12000 160)).setpoint = 155 + 1 :=
  have h := ((nudge_only_while_running soakRunning (upPress 12000 160)).2
    (by decide) (by decide) (by decide)).2.1 (by decide) (by decide)
  ⟨reachable_run (Reachable.boot bootLF) _, by decide, h⟩

/-- In Idle with the process off, a pass with the profile button pressed
toggles the profile and stores its byte. -/
theorem idle_toggle (s : State) (inp : Input) (hinv : StageInv s)
    (hidle : s.reflowState = REFLOW_STATE_IDLE) (hp : inp.profileBtn = true) :
    (loop s inp).reflowProfile = otherProfile s.reflowProfile ∧
      (loop s inp).eeprom = profileByte (otherProfile s.reflowProfile) := by
  have hoff : s.reflowStatus = REFLOW_STATUS_OFF := by
    unfold StageInv at hinv; rw [hidle] at hinv; exact hinv
  have hst : stopButton s inp = s := by
    refine (stopButton_fires s inp).2 ?_
    rw [hoff, hidle]
    exact fun hc => hc.2.elim (fun h => absurd h (by decide)) (fun h => absurd h (by decide))
  rw [(loop_profile s inp).1, (loop_profile s inp).2]
  exact (buttons_profile s inp).1 ⟨hp, by rw [hst]; exact hidle⟩

theorem otherProfile_twice (p : reflowProfile_t) : otherProfile (otherProfile p) = p := by
  cases p <;> rfl

/-- C20: in every reachable state (after `setup()` and after every pass of
`loop()`) the EEPROM cell holds the byte of the selected profile, so a
`setup()` that reads the cell back selects the same profile; a `setup()` that
reads a byte that is no profile selects lead-free and stores the lead-free
byte; and two passes in Idle that both toggle the profile restore the selected
profile and the EEPROM cell. -/
theorem profile_is_persisted (s : State) (hs : Reachable s) :
    s.eeprom = profileByte s.reflowProfile ∧
      (∀ (now : Nat) (fault : Bool), (setup ⟨s.eeprom, now, fault⟩).reflowProfile =
        s.reflowProfile) ∧
      (∀ b : Boot, b.eepromByte ≠ profileByte REFLOW_PROFILE_LEADFREE →
        b.eepromByte ≠ profileByte REFLOW_PROFILE_LEADED →
        (setup b).reflowProfile = REFLOW_PROFILE_LEADFREE ∧
          (setup b).eeprom = profileByte REFLOW_PROFILE_LEADFREE) ∧
      (∀ inp1 inp2 : Input, s.reflowState = REFLOW_STATE_IDLE → inp1.profileBtn = true →
        (loop s inp1).reflowState = REFLOW_STATE_IDLE → inp2.profileBtn = true →
        (loop s inp1).reflowProfile = otherProfile s.reflowProfile ∧
          (loop s inp1).eeprom = profileByte (otherProfile s.reflowProfile) ∧
          (loop (loop s inp1) inp2).reflowProfile = s.reflowProfile ∧
          (loop (loop s inp1) inp2).eeprom = s.eeprom) := by
  have he : s.eeprom = profileByte s.reflowProfile := reachable_eepromInv hs
  refine ⟨he, ?_, ?_, ?_⟩
  · intro now fault
    rw [he]
    cases s.reflowProfile <;> simp [setup, profileByte]
  · intro b h0 h1
    have h0b : b.eepromByte ≠ 0 := h0
    have h1b : b.eepromByte ≠ 1 := h1
    simp [setup, h0b, h1b, profileByte]
  · intro inp1 inp2 hidle hp1 hidle2 hp2
    have h1 := idle_toggle s inp1 (reachable_inv hs) hidle hp1
    have h2 := idle_toggle (loop s inp1) inp2 (loop_inv s inp1 (reachable_inv hs)) hidle2 hp2
    rw [h1.1, otherProfile_twice] at h2
    exact ⟨h1.1, h1.2, h2.1, by rw [h2.2, he]⟩

/-- Instance of C20: the powered-up lead-free unit, two passes with the profile
button pressed at 40 degrees. -/
theorem profile_is_persisted_witness :
    Reachable (setup bootLF) ∧
      (setup bootLF).eeprom = profileByte (setup bootLF).reflowProfile ∧
      (loop (setup bootLF) (profilePress 10000 40)).reflowProfile = REFLOW_PROFILE_LEADED ∧
      (loop (loop (setup bootLF) (profilePress 10000 40)) (profilePress 11000 40)).eeprom =
        (setup bootLF).eeprom :=
  have h := profile_is_persisted (setup bootLF) (Reachable.boot bootLF)
  have h2 := h.2.2.2 (profilePress 10000 40) (profilePress 11000 40) (by decide) (by decide)
    (by decide) (by decide)
  ⟨Reachable.boot bootLF, h.1, h2.1, h2.2.2.2⟩

/-! # The frozen sensor, the Soak deadline and the length of Soak -/

/-- One pass from Soak with no press at the stop test, no nudge and no trip of
the runaway check: the profile variables are kept, and the pass either waits
(clock not after `timerSoak`), or steps the setpoint by 5 and re-arms
`timerSoak` at the clock plus `soakMicroPeriod`, or leaves for Reflow. -/
theorem soak_pass (s : State) (inp : Input) (hsoak : s.reflowState = REFLOW_STATE_SOAK)
    (hno : inp.startBtn1 = false) (hup : inp.upBtn = false) (hdn : inp.downBtn = false)
    (hnf : ¬ stallFault s inp) :
    (loop s inp).soakMicroPeriod = s.soakMicroPeriod ∧
      (loop s inp).soakTemperatureMax = s.soakTemperatureMax ∧
      (loop s inp).reflowTemperatureMax = s.reflowTemperatureMax ∧
      ((¬ millis inp > s.timerSoak ∧ (loop s inp).reflowState = REFLOW_STATE_SOAK ∧
          (loop s inp).setpoint = s.setpoint ∧ (loop s inp).timerSoak = s.timerSoak) ∨
        (millis inp > s.timerSoak ∧
          s.setpoint + SOAK_TEMPERATURE_STEP ≤ (s.soakTemperatureMax : Int) ∧
          (loop s inp).reflowState = REFLOW_STATE_SOAK ∧
          (loop s inp).setpoint = s.setpoint + 5 ∧
          (loop s inp).timerSoak = ulAdd (millis inp) s.soakMicroPeriod) ∨
        (millis inp > s.timerSoak ∧
          s.setpoint + SOAK_TEMPERATURE_STEP > (s.soakTemperatureMax : Int) ∧
          (loop s inp).reflowState = REFLOW_STATE_REFLOW ∧
          (loop s inp).setpoint = (s.reflowTemperatureMax : Int) ∧
          (loop s inp).timerSoak = ulAdd (millis inp) s.soakMicroPeriod)) := by
  have ht := (pass_keeps_stage s inp hno hnf (by rw [hsoak]; decide)).1
  rw [hsoak] at ht
  have hsp := pass_setpoint_noNudge s inp hup hdn
  have htim : (sampling (buttons s inp) inp).timerSoak = s.timerSoak := by
    rw [sampling_timerSoak, buttons_timerSoak]
  have hmax : (sampling (buttons s inp) inp).soakTemperatureMax = s.soakTemperatureMax := by
    rw [sampling_soakTemperatureMax, buttons_soakTemperatureMax]
  have hrmax : (sampling (buttons s inp) inp).reflowTemperatureMax = s.reflowTemperatureMax := by
    rw [sampling_reflowTemperatureMax, buttons_reflowTemperatureMax]
  have hper : (sampling (buttons s inp) inp).soakMicroPeriod = s.soakMicroPeriod := by
    rw [sampling_soakMicroPeriod, buttons_soakMicroPeriod]
  unfold loop
  rw [stateMachine_soak _ _ ht, htim, hsp, hmax, hrmax, hper]
  by_cases h1 : millis inp > s.timerSoak
  · by_cases h2 : s.setpoint + SOAK_TEMPERATURE_STEP > (s.soakTemperatureMax : Int)
    · rw [if_pos h1, if_pos h2]
      exact ⟨rfl, rfl, rfl, Or.inr (Or.inr ⟨h1, h2, rfl, rfl, rfl⟩)⟩
    · rw [if_pos h1, if_neg h2]
      exact ⟨rfl, rfl, rfl, Or.inr (Or.inl ⟨h1, not_lt.mp h2, ht, rfl, rfl⟩)⟩
  · rw [if_neg h1]
    exact ⟨hper, hmax, hrmax, Or.inl ⟨h1, ht, hsp, htim⟩⟩

/-- A pass that starts in Preheat and ends in Soak has executed the Preheat
case: setpoint 155, `timerSoak` at the clock plus `soakMicroPeriod`. -/
theorem enter_soak (s : State) (inp : Input) (hpre : s.reflowState = REFLOW_STATE_PREHEAT)
    (hent : (loop s inp).reflowState = REFLOW_STATE_SOAK) :
    (loop s inp).setpoint = 155 ∧
      (loop s inp).timerSoak = ulAdd (millis inp) s.soakMicroPeriod ∧
      (loop s inp).soakMicroPeriod = s.soakMicroPeriod ∧
      (loop s inp).soakTemperatureMax = s.soakTemperatureMax ∧
      (loop s inp).reflowTemperatureMax = s.reflowTemperatureMax := by
  have hmax : (sampling (buttons s inp) inp).soakTemperatureMax = s.soakTemperatureMax := by
    rw [sampling_soakTemperatureMax, buttons_soakTemperatureMax]
  have hrmax : (sampling (buttons s inp) inp).reflowTemperatureMax = s.reflowTemperatureMax := by
    rw [sampling_reflowTemperatureMax, buttons_reflowTemperatureMax]
  have hper : (sampling (buttons s inp) inp).soakMicroPeriod = s.soakMicroPeriod := by
    rw [sampling_soakMicroPeriod, buttons_soakMicroPeriod]
  unfold loop at hent ⊢
  rcases pass_stage s inp with h | h | h
  · rw [hpre] at h
    rw [stateMachine_preheat _ _ h] at hent ⊢
    by_cases hc : (sampling (buttons s inp) inp).thermoReading ≥ TEMPERATURE_SOAK_MIN
    · rw [if_pos hc, hper]
      exact ⟨rfl, rfl, rfl, hmax, hrmax⟩
    · rw [if_neg hc] at hent
      have h2 : (sampling (buttons s inp) inp).reflowState = REFLOW_STATE_SOAK := hent
      rw [h] at h2
      exact absurd h2 (by decide)
  · rw [stateMachine_idle _ _ h] at hent
    unfold startReflow at hent
    dsimp only at hent
    split_ifs at hent
    simp [h] at hent
  · rw [stateMachine_error _ _ h] at hent
    have h2 : (sampling (buttons s inp) inp).reflowState = REFLOW_STATE_SOAK := hent
    rw [h] at h2
    exact absurd h2 (by decide)

/-- Along a run that stays in Soak (`soakRun`), starting below
`soakTemperatureMax`, with no deadline computation wrapping around `2 ^ 32`:
the profile variables are kept, the setpoint has grown by 5 per step, it is
still at most `soakTemperatureMax`, and `timerSoak` has grown by at least one
`soakMicroPeriod` per step. -/
theorem soak_run_facts (l : List Input) :
    ∀ (s : State) (B : Nat), s.reflowState = REFLOW_STATE_SOAK → soakRun s l →
      (∀ i ∈ l, millis i + s.soakMicroPeriod < ULONG_RANGE) →
      B ≤ s.timerSoak → s.setpoint ≤ (s.soakTemperatureMax : Int) →
      (run s l).reflowState = REFLOW_STATE_SOAK ∧
        (run s l).soakMicroPeriod = s.soakMicroPeriod ∧
        (run s l).soakTemperatureMax = s.soakTemperatureMax ∧
        (run s l).reflowTemperatureMax = s.reflowTemperatureMax ∧
        (run s l).setpoint = s.setpoint + 5 * (setpointSteps s l : Int) ∧
        (run s l).setpoint ≤ (s.soakTemperatureMax : Int) ∧
        B + setpointSteps s l * s.soakMicroPeriod ≤ (run s l).timerSoak := by
  induction l with
  | nil =>
    intro s B hsoak _ _ hB hle
    refine ⟨hsoak, rfl, rfl, rfl, ?_, hle, ?_⟩
    · simp [run, setpointSteps]
    · simpa [run, setpointSteps] using hB
  | cons inp rest ih =>
    intro s B hsoak hrun hov hB hle
    obtain ⟨hno, hup, hdn, hnf, hstay, hrest⟩ := hrun
    have hp := soak_pass s inp hsoak hno hup hdn hnf
    obtain ⟨hper, hmax, hrmax, hcase⟩ := hp
    have hov1 : millis inp + s.soakMicroPeriod < ULONG_RANGE := hov inp (List.mem_cons_self _ _)
    have hovr : ∀ i ∈ rest, millis i + (loop s inp).soakMicroPeriod < ULONG_RANGE := by
      intro i hi
      rw [hper]
      exact hov i (List.mem_cons_of_mem _ hi)
    rcases hcase with ⟨_, _, hsp, htim⟩ | ⟨h1, h2, _, hsp, htim⟩ | ⟨_, _, hre, _, _⟩
    · have h := ih (loop s inp) B hstay hrest hovr (by rw [htim]; exact hB)
        (by rw [hsp, hmax]; exact hle)
      obtain ⟨a1, a2, a3, a4, a5, a6, a7⟩ := h
      have hst : setpointSteps s (inp :: rest) = setpointSteps (loop s inp) rest := by
        simp [setpointSteps, hsp]
      rw [hst]
      refine ⟨a1, a2.trans hper, a3.trans hmax, a4.trans hrmax, ?_, ?_, ?_⟩
      · show (run (loop s inp) rest).setpoint = _
        rw [a5, hsp]
      · show (run (loop s inp) rest).setpoint ≤ _
        rw [← hmax]; exact a6
      · show _ ≤ (run (loop s inp) rest).timerSoak
        rw [← hper]; exact a7
    · have hnew : (loop s inp).timerSoak = millis inp + s.soakMicroPeriod := by
        rw [htim]; unfold ulAdd; exact Nat.mod_eq_of_lt hov1
      have hB2 : B + s.soakMicroPeriod ≤ (loop s inp).timerSoak := by
        rw [hnew]; omega
      have h := ih (loop s inp) (B + s.soakMicroPeriod) hstay hrest hovr hB2
        (by rw [hsp, hmax]; exact h2)
      obtain ⟨a1, a2, a3, a4, a5, a6, a7⟩ := h
      have hne : ¬ (loop s inp).setpoint = s.setpoint := by rw [hsp]; omega
      have hst : setpointSteps s (inp :: rest) = 1 + setpointSteps (loop s inp) rest := by
        simp [setpointSteps, hne]
      rw [hst]
      refine ⟨a1, a2.trans hper, a3.trans hmax, a4.trans hrmax, ?_, ?_, ?_⟩
      · show (run (loop s inp) rest).setpoint = _
        rw [a5, hsp]
        push_cast
        ring
      · show (run (loop s inp) rest).setpoint ≤ _
        rw [← hmax]; exact a6
      · show _ ≤ (run (loop s inp) rest).timerSoak
        rw [hper] at a7
        have e : (1 + setpointSteps (loop s inp) rest) * s.soakMicroPeriod =
            s.soakMicroPeriod + setpointSteps (loop s inp) rest * s.soakMicroPeriod := by ring
        rw [e]
        omega
    · rw [hre] at hstay
      exact absurd hstay (by decide)

/-- C21, evaluated on the code: a lead-free run enters Soak at 11000 ms with a
sample of 160 degrees and the process on; the next seven samples, one per
1000 ms, all read 160 and no button is pressed.  At 18000 ms, after 7000 ms of
frozen reading, the stage is still Soak (it was Soak after every one of these
passes), the process is still on and the fan pin is LOW: no fault was raised. -/
theorem frozen_sensor_raises_no_fault :
    Reachable soakAt160 ∧
      soakAt160.reflowState = REFLOW_STATE_SOAK ∧
      soakAt160.reflowStatus = REFLOW_STATUS_ON ∧
      soakAt160.thermoReading = 160 ∧
      (∀ i ∈ frozenInputs, i.sensor = 160 ∧ i.startBtn1 = false) ∧
      (∀ k, k ≤ 7 →
        (run soakAt160 (frozenInputs.take k)).reflowState = REFLOW_STATE_SOAK ∧
        (run soakAt160 (frozenInputs.take k)).nextRead = 11000 + 1000 * k) ∧
      (run soakAt160 frozenInputs).reflowState = REFLOW_STATE_SOAK ∧
      (run soakAt160 frozenInputs).reflowState ≠ REFLOW_STATE_ERROR ∧
      (run soakAt160 frozenInputs).reflowStatus = REFLOW_STATUS_ON ∧
      (run soakAt160 frozenInputs).thermoReadingRead = 160 ∧
      (run soakAt160 frozenInputs).thermoReading = 160 ∧
      (run soakAt160 frozenInputs).fanPin = false :=
  ⟨reachable_run (Reachable.boot bootLF) _, by decide, by decide, by decide, by decide,
    by decide, by decide, by decide, by decide, by decide, by decide, by decide⟩

/-- The value `case REFLOW_STATE_SOAK` leaves in `timerSoak`. -/
theorem soak_timer (t : State) (inp : Input) (h : t.reflowState = REFLOW_STATE_SOAK) :
    (stateMachine t inp).timerSoak =
      if millis inp > t.timerSoak then ulAdd (millis inp) t.soakMicroPeriod
      else t.timerSoak := by
  rw [stateMachine_soak _ _ h]
  split_ifs <;> rfl

/-- C22 as stated fails: the lead-free run in Soak has `timerSoak` 20000 and
`soakMicroPeriod` 9000; after the pass at 25000 ms `timerSoak` is 34000 (the
clock plus the period), not 29000 (the old deadline plus the period). -/
theorem soak_deadline_is_reanchored :
    Reachable soakRunning ∧
      soakRunning.reflowState = REFLOW_STATE_SOAK ∧
      soakRunning.timerSoak = 20000 ∧
      soakRunning.soakMicroPeriod = 9000 ∧
      millis (quiet 25000 160) > soakRunning.timerSoak ∧
      (loop soakRunning (quiet 25000 160)).reflowState = REFLOW_STATE_SOAK ∧
      (loop soakRunning (quiet 25000 160)).timerSoak = 34000 ∧
      (loop soakRunning (quiet 25000 160)).timerSoak ≠
        soakRunning.timerSoak + soakRunning.soakMicroPeriod :=
  ⟨reachable_run (Reachable.boot bootLF) _, by decide, by decide, by decide, by decide,
    by decide, by decide, by decide⟩

/-- C22 amended: for every pass in stage Soak with no press at the stop test and
no trip of the runaway check, when the clock is after `timerSoak` the new
`timerSoak` is the clock plus `soakMicroPeriod` (in `unsigned long` arithmetic,
the plain sum when it does not overflow), whatever the clock; when the clock is
not after `timerSoak`, `timerSoak` is unchanged. -/
theorem soak_deadline_from_clock (s : State) (inp : Input)
    (hsoak : s.reflowState = REFLOW_STATE_SOAK) (hno : inp.startBtn1 = false)
    (hnf : ¬ stallFault s inp) :
    (millis inp > s.timerSoak →
        (loop s inp).timerSoak = ulAdd (millis inp) s.soakMicroPeriod ∧
        (millis inp + s.soakMicroPeriod < ULONG_RANGE →
          (loop s inp).timerSoak = millis inp + s.soakMicroPeriod)) ∧
      (¬ millis inp > s.timerSoak → (loop s inp).timerSoak = s.timerSoak) := by
  have ht := (pass_keeps_stage s inp hno hnf (by rw [hsoak]; decide)).1
  rw [hsoak] at ht
  have htim : (sampling (buttons s inp) inp).timerSoak = s.timerSoak := by
    rw [sampling_timerSoak, buttons_timerSoak]
  have hper : (sampling (buttons s inp) inp).soakMicroPeriod = s.soakMicroPeriod := by
    rw [sampling_soakMicroPeriod, buttons_soakMicroPeriod]
  unfold loop
  rw [soak_timer _ inp ht, htim, hper]
  constructor
  · intro h
    rw [if_pos h]
    refine ⟨rfl, ?_⟩
    intro hlt
    unfold ulAdd
    exact Nat.mod_eq_of_lt hlt
  · intro h
    rw [if_neg h]

/-- Instance of C22 amended: the pass at 25000 ms of the lead-free Soak. -/
theorem soak_deadline_from_clock_witness :
    soakRunning.reflowState = REFLOW_STATE_SOAK ∧
      (loop soakRunning (quiet 25000 160)).timerSoak =
        millis (quiet 25000 160) + soakRunning.soakMicroPeriod :=
  ⟨by decide,
    ((soak_deadline_from_clock soakRunning (quiet 25000 160) (by decide) (by decide)
      (by decide)).1 (by decide)).2 (by decide)⟩

/-- C23, evaluated on the code: a lead-free unit is started 49.7 days after
power-up and enters Soak 12000 ms before the millisecond clock wraps around
`2 ^ 32` (setpoint 155, `timerSoak` at `2 ^ 32 - 3000`).  The first step
re-arms `timerSoak` at the clock plus 9000, which wraps to 6001, and from then
on every pass finds its clock above `timerSoak`.  With no nudge, no stop press
and no trip of the runaway check, the nine steps up to 200 and the pass that
leaves for Reflow are over 9901 ms after the entry, not 90000 ms. -/
theorem soak_shortened_at_wrap :
    Reachable preheatLate ∧
      preheatLate.reflowState = REFLOW_STATE_PREHEAT ∧
      preheatLate.reflowProfile = REFLOW_PROFILE_LEADFREE ∧
      (loop preheatLate entryLate).reflowState = REFLOW_STATE_SOAK ∧
      (loop preheatLate entryLate).setpoint = 155 ∧
      soakRun (loop preheatLate entryLate) soakLateInputs ∧
      setpointSteps (loop preheatLate entryLate) soakLateInputs = 9 ∧
      (run (loop preheatLate entryLate) soakLateInputs).setpoint = 200 ∧
      exitLate.startBtn1 = false ∧ exitLate.upBtn = false ∧ exitLate.downBtn = false ∧
      ¬ stallFault (run (loop preheatLate entryLate) soakLateInputs) exitLate ∧
      (loop (run (loop preheatLate entryLate) soakLateInputs) exitLate).reflowState =
        REFLOW_STATE_REFLOW ∧
      millis entryLate < millis exitLate ∧
      millis exitLate - millis entryLate = 9901 :=
  ⟨reachable_run (Reachable.boot bootLF) _, by decide, by decide, by decide, by decide,
    by decide, by decide, by decide, by decide, by decide, by decide, by decide, by decide,
    by decide, by decide⟩

/-- The length of Soak when no deadline wraps: let a pass take a reachable
Preheat state into Soak, let a run of passes follow that stay in Soak with no
press at the stop test, no nudge and no trip of the runaway check (`soakRun`),
and let the next pass, equally quiet, end in Reflow.  If no deadline
computation of these passes wraps around `2 ^ 32`, then
* lead-free: the run holds exactly 9 setpoint steps, reaching 200, the last
  pass is the tenth step (it sets the Reflow setpoint 250), and its clock is
  more than 10 x 9000 ms after the clock of the entry pass;
* leaded: the run holds exactly 5 setpoint steps, reaching 180, the last pass
  is the sixth step (Reflow setpoint 224), and its clock is more than
  6 x 10000 ms after the clock of the entry pass. -/
theorem soak_duration (s : State) (entry : Input) (l : List Input) (last : Input)
    (hs : Reachable s) (hpre : s.reflowState = REFLOW_STATE_PREHEAT)
    (hent : (loop s entry).reflowState = REFLOW_STATE_SOAK)
    (hrun : soakRun (loop s entry) l)
    (hno : last.startBtn1 = false) (hup : last.upBtn = false) (hdn : last.downBtn = false)
    (hnf : ¬ stallFault (run (loop s entry) l) last)
    (hexit : (loop (run (loop s entry) l) last).reflowState = REFLOW_STATE_REFLOW)
    (hov : ∀ i ∈ entry :: l, millis i + s.soakMicroPeriod < ULONG_RANGE) :
    (s.reflowProfile = REFLOW_PROFILE_LEADFREE →
        setpointSteps (loop s entry) l = 9 ∧
        (run (loop s entry) l).setpoint = 200 ∧
        (loop (run (loop s entry) l) last).setpoint = 250 ∧
        millis last > millis entry + 10 * 9000) ∧
      (s.reflowProfile = REFLOW_PROFILE_LEADED →
        setpointSteps (loop s entry) l = 5 ∧
        (run (loop s entry) l).setpoint = 180 ∧
        (loop (run (loop s entry) l) last).setpoint = 224 ∧
        millis last > millis entry + 6 * 10000) := by
  have hinv := reachable_inv hs
  have hload : profileLoaded s := by
    unfold StageInv at hinv; rw [hpre] at hinv; exact hinv
  obtain ⟨hsp0, htim0, hper0, hmax0, hrmax0⟩ := enter_soak s entry hpre hent
  have hov0 : millis entry + s.soakMicroPeriod < ULONG_RANGE :=
    hov entry (List.mem_cons_self _ _)
  have htim1 : (loop s entry).timerSoak = millis entry + s.soakMicroPeriod := by
    rw [htim0]; unfold ulAdd; exact Nat.mod_eq_of_lt hov0
  have hovl : ∀ i ∈ l, millis i + (loop s entry).soakMicroPeriod < ULONG_RANGE := by
    intro i hi
    rw [hper0]
    exact hov i (List.mem_cons_of_mem _ hi)
  have hM : (155 : Int) ≤ (s.soakTemperatureMax : Int) := by
    rw [hload.1]
    cases s.reflowProfile <;> decide
  have hfacts := soak_run_facts l (loop s entry) (millis entry + s.soakMicroPeriod) hent hrun
    hovl (by rw [htim1]) (by rw [hsp0, hmax0]; exact hM)
  obtain ⟨b1, b2, b3, b4, b5, b6, b7⟩ := hfacts
  rw [hsp0] at b5
  rw [hmax0] at b6 b3
  rw [hper0] at b7 b2
  rw [hrmax0] at b4
  have hlast := soak_pass (run (loop s entry) l) last b1 hno hup hdn hnf
  obtain ⟨_, _, _, hcase⟩ := hlast
  rcases hcase with ⟨_, hst, _, _⟩ | ⟨_, _, hst, _, _⟩ | ⟨c1, c2, _, c4, _⟩
  · rw [hst] at hexit
    exact absurd hexit (by decide)
  · rw [hst] at hexit
    exact absurd hexit (by decide)
  · rw [b3] at c2
    rw [b4] at c4
    constructor
    · intro hp
      have e1 : s.soakTemperatureMax = 200 := by rw [hload.1, hp]; rfl
      have e2 : s.reflowTemperatureMax = 250 := by rw [hload.2.1, hp]; rfl
      have e3 : s.soakMicroPeriod = 9000 := by rw [hload.2.2, hp]; rfl
      rw [e1] at b6 c2
      rw [e3] at b7
      have hn : setpointSteps (loop s entry) l = 9 := by
        have h5 : (SOAK_TEMPERATURE_STEP : Int) = 5 := rfl
        rw [h5] at c2
        push_cast at b6 c2
        omega
      rw [hn] at b5 b7
      refine ⟨hn, ?_, ?_, ?_⟩
      · rw [b5]; norm_num
      · rw [c4, e2]; rfl
      · omega
    · intro hp
      have e1 : s.soakTemperatureMax = 180 := by rw [hload.1, hp]; rfl
      have e2 : s.reflowTemperatureMax = 224 := by rw [hload.2.1, hp]; rfl
      have e3 : s.soakMicroPeriod = 10000 := by rw [hload.2.2, hp]; rfl
      rw [e1] at b6 c2
      rw [e3] at b7
      have hn : setpointSteps (loop s entry) l = 5 := by
        have h5 : (SOAK_TEMPERATURE_STEP : Int) = 5 := rfl
        rw [h5] at c2
        push_cast at b6 c2
        omega
      rw [hn] at b5 b7
      refine ⟨hn, ?_, ?_, ?_⟩
      · rw [b5]; norm_num
      · rw [c4, e2]; rfl
      · omega

/-- Instance of `soak_duration`: the lead-free cycle of `cycleInputs`, which
enters Soak at 11000 ms and leaves it at 101010 ms. -/
theorem soak_duration_cycle :
    Reachable preheatCold ∧
      preheatCold.reflowProfile = REFLOW_PROFILE_LEADFREE ∧
      (loop preheatCold (quiet 11000 150)).reflowState = REFLOW_STATE_SOAK ∧
      soakRun (loop preheatCold (quiet 11000 150)) cycleSoakInputs ∧
      setpointSteps (loop preheatCold (quiet 11000 150)) cycleSoakInputs = 9 ∧
      millis (quiet 101010 160) > millis (quiet 11000 150) + 10 * 9000 :=
  have h := (soak_duration preheatCold (quiet 11000 150) cycleSoakInputs (quiet 101010 160)
    (Reachable.pass _ (Reachable.boot bootLF)) (by decide) (by decide) (by decide)
    (by decide) (by decide) (by decide) (by decide) (by decide) (by decide)).1 (by decide)
  ⟨Reachable.pass _ (Reachable.boot bootLF), by decide, by decide, by decide, h.1, h.2.2.2⟩

/-! ## The heater pin and the running flag over whole runs -/

/-- No statement of a pass writes `output`: `reflowOvenPID.Compute()` is not
called. -/
theorem loop_output (s : State) (inp : Input) : (loop s inp).output = s.output := by
  have h1 : (buttons s inp).output = s.output := by rw [buttons_frame]
  have h2 : (sampling (buttons s inp) inp).output = (buttons s inp).output := by
    rw [sampling_frame]
  have h3 : ∀ t : State, (stateMachine t inp).output = t.output := by
    intro t
    unfold stateMachine startReflow
    cases t.reflowState <;> dsimp only <;> (try split_ifs) <;> rfl
  unfold loop
  rw [h3, h2, h1]

/-- Heater pin and PID output along a run. -/
theorem run_heater (l : List Input) :
    ∀ s : State, s.ssrPin = false → (run s l).ssrPin = false ∧ (run s l).output = s.output := by
  induction l with
  | nil => intro s h; exact ⟨h, rfl⟩
  | cons inp rest ih =>
    intro s h
    have h2 := ih (loop s inp) (loop_ssrPin s inp h)
    exact ⟨h2.1, h2.2.trans (loop_output s inp)⟩

/-- C24: after `setup()` and after every pass of every sequence of passes, with
any clock values, readings, buttons and PID outputs, the heater pin is LOW;
the variable `output` still has its initial value 0, because the statements
that call `Compute()` and write the heater pin HIGH are never executed. -/
theorem heater_never_on (b : Boot) (l : List Input) (inp : Input) :
    (setup b).ssrPin = false ∧
      (run (setup b) l).ssrPin = false ∧
      (loop (run (setup b) l) inp).ssrPin = false ∧
      (run (setup b) l).output = 0 ∧
      (loop (run (setup b) l) inp).output = 0 := by
  have h := run_heater l (setup b) rfl
  have ho : (run (setup b) l).output = 0 := h.2
  exact ⟨rfl, h.1, loop_ssrPin _ inp h.1, ho, (loop_output _ inp).trans ho⟩

/-- C25: in every reachable state the process is on only in Preheat, Soak,
Reflow or Cool; it is off in Idle, Complete, TooHot and Error; and in every
pass, when the runaway switch is entered (the process is on after the button
tests) the stage is not Idle, so `case REFLOW_STATE_IDLE` of that switch is
never executed. -/
theorem running_only_in_process_stages (s : State) (hs : Reachable s) :
    (s.reflowStatus = REFLOW_STATUS_ON →
        s.reflowState = REFLOW_STATE_PREHEAT ∨ s.reflowState = REFLOW_STATE_SOAK ∨
        s.reflowState = REFLOW_STATE_REFLOW ∨ s.reflowState = REFLOW_STATE_COOL) ∧
      (s.reflowState = REFLOW_STATE_IDLE ∨ s.reflowState = REFLOW_STATE_COMPLETE ∨
        s.reflowState = REFLOW_STATE_TOO_HOT ∨ s.reflowState = REFLOW_STATE_ERROR →
        s.reflowStatus = REFLOW_STATUS_OFF) ∧
      (∀ inp : Input, (buttons s inp).reflowStatus = REFLOW_STATUS_ON →
        (buttons s inp).reflowState ≠ REFLOW_STATE_IDLE) := by
  have key : ∀ t : State, StageInv t →
      (t.reflowState = REFLOW_STATE_IDLE ∨ t.reflowState = REFLOW_STATE_COMPLETE ∨
        t.reflowState = REFLOW_STATE_TOO_HOT ∨ t.reflowState = REFLOW_STATE_ERROR →
        t.reflowStatus = REFLOW_STATUS_OFF) := by
    intro t hinv hst
    unfold StageInv at hinv
    rcases hst with h | h | h | h <;> rw [h] at hinv <;> exact hinv
  have hinv := reachable_inv hs
  refine ⟨?_, key s hinv, ?_⟩
  · intro hon
    have hk := key s hinv
    cases hst : s.reflowState
    case REFLOW_STATE_IDLE =>
      have := hk (Or.inl hst); rw [hon] at this; exact absurd this (by decide)
    case REFLOW_STATE_PREHEAT => exact Or.inl rfl
    case REFLOW_STATE_SOAK => exact Or.inr (Or.inl rfl)
    case REFLOW_STATE_REFLOW => exact Or.inr (Or.inr (Or.inl rfl))
    case REFLOW_STATE_COOL => exact Or.inr (Or.inr (Or.inr rfl))
    case REFLOW_STATE_COMPLETE =>
      have := hk (Or.inr (Or.inl hst)); rw [hon] at this; exact absurd this (by decide)
    case REFLOW_STATE_TOO_HOT =>
      have := hk (Or.inr (Or.inr (Or.inl hst))); rw [hon] at this
      exact absurd this (by decide)
    case REFLOW_STATE_ERROR =>
      have := hk (Or.inr (Or.inr (Or.inr hst))); rw [hon] at this
      exact absurd this (by decide)
  · intro inp hon hidle
    have := key (buttons s inp) (buttons_inv s inp hinv) (Or.inl hidle)
    rw [hon] at this
    exact absurd this (by decide)

/-- Instance of C25: the lead-free run one second into Preheat. -/
theorem running_only_in_process_stages_witness :
    Reachable preheatRunning ∧ preheatRunning.reflowStatus = REFLOW_STATUS_ON ∧
      (preheatRunning.reflowState = REFLOW_STATE_PREHEAT ∨
        preheatRunning.reflowState = REFLOW_STATE_SOAK ∨
        preheatRunning.reflowState = REFLOW_STATE_REFLOW ∨
        preheatRunning.reflowState = REFLOW_STATE_COOL) :=
  ⟨reachable_preheatRunning, by decide,
    (running_only_in_process_stages preheatRunning reachable_preheatRunning).1 (by decide)⟩

end HotPlate
